import Mathlib

/-!
Shallow embedding of the route-safety engine of the `women-safety-app`
repository (files `app.py`, `app/routes.py`, `app/safety/guardrails.py`)
together with proofs about its candidate generation, scoring, guardrail and
ranking behaviour.

Python floats are modelled by the real numbers `ℝ`; functions that are pure
rational arithmetic (the guardrail engine, the composite scorers) are
modelled generically over a `LinearOrderedField` so that they can also be
instantiated at `ℚ` and evaluated by `decide`.  Pandas dataframes are
modelled as lists of row structures; the brute-force bounding-box filters of
the source become `List.filter`.  External collaborators (the OSRM route
provider, the ML predictor) are inputs of the model.
-/

set_option maxHeartbeats 1000000
set_option autoImplicit false

open Real

noncomputable section

/-! ## Coordinates and the haversine distance (`app.py` lines 178-188)

`haversine_distance` converts its four arguments with `float(...)` inside a
`try`, maps `math.radians` over them and applies the haversine formula.  The
numeric core (valid floats) is `hav`; the behaviour on unparseable input
differs between the three copies in the source and is modelled below by
`App.haversine_distance`, `Routes.haversine_distance` and
`Guardrails.haversine_distance` over `Option ℝ` inputs (`none` stands for an
argument on which `float(...)` raises). -/

/-- Degrees to radians, `math.radians`. -/
def rad (x : ℝ) : ℝ := x * π / 180

/-- Core haversine formula on valid numeric inputs (km); the shared body of
all three `haversine_distance` copies. -/
def hav (lat1 lon1 lat2 lon2 : ℝ) : ℝ :=
  let la1 := rad lat1
  let lo1 := rad lon1
  let la2 := rad lat2
  let lo2 := rad lon2
  let dlat := la2 - la1
  let dlon := lo2 - lo1
  let a := Real.sin (dlat / 2) ^ 2 +
    Real.cos la1 * Real.cos la2 * Real.sin (dlon / 2) ^ 2
  let c := 2 * Real.arcsin (Real.sqrt a)
  6371 * c

/-- Result of a Python call that may return a float, `float('inf')`, or
raise an uncaught exception. -/
inductive PyFloat where
  | val (x : ℝ)
  | posInf
  | exn
  deriving DecidableEq

namespace App

/-- Model of `haversine_distance` in `app.py` (lines 178-188): the body is
wrapped in `try/except` returning `float('inf')` on failure, so an argument
that does not parse as a float yields `posInf`. -/
def haversine_distance (lat1 lon1 lat2 lon2 : Option ℝ) : PyFloat :=
  match lat1, lon1, lat2, lon2 with
  | some a, some b, some c, some d => .val (hav a b c d)
  | _, _, _, _ => .posInf

end App

namespace Routes

/-- Model of `haversine_distance` in `app/routes.py` (lines 2148-2158): the
`except` clause returns `0`, not `float('inf')`. -/
def haversine_distance (lat1 lon1 lat2 lon2 : Option ℝ) : PyFloat :=
  match lat1, lon1, lat2, lon2 with
  | some a, some b, some c, some d => .val (hav a b c d)
  | _, _, _, _ => .val 0

end Routes

namespace Guardrails

/-- Model of `haversine_distance` in `app/safety/guardrails.py` (lines
11-18): there is no `try/except`, so a non-numeric argument makes
`math.radians` raise and the exception propagates. -/
def haversine_distance (lat1 lon1 lat2 lon2 : Option ℝ) : PyFloat :=
  match lat1, lon1, lat2, lon2 with
  | some a, some b, some c, some d => .val (hav a b c d)
  | _, _, _, _ => .exn

end Guardrails

lemma hav_self (lat lon : ℝ) : hav lat lon lat lon = 0 := by
  simp [hav]

lemma hav_comm (lat1 lon1 lat2 lon2 : ℝ) :
    hav lat1 lon1 lat2 lon2 = hav lat2 lon2 lat1 lon1 := by
  unfold hav
  have h1 : rad lat2 - rad lat1 = -(rad lat1 - rad lat2) := by ring
  have h2 : rad lon2 - rad lon1 = -(rad lon1 - rad lon2) := by ring
  simp only [h1, h2, neg_div, Real.sin_neg, neg_sq]
  ring_nf

/-- Claim C10: for all coordinates `a` and `b`, `distanceKm(a,a)` is exactly
`0`, and `distanceKm` is symmetric: `distanceKm(a,b) = distanceKm(b,a)`. -/
theorem distanceKm_self_eq_zero_and_comm (lat1 lon1 lat2 lon2 : ℝ) :
    hav lat1 lon1 lat1 lon1 = 0 ∧
    hav lat1 lon1 lat2 lon2 = hav lat2 lon2 lat1 lon1 :=
  ⟨hav_self lat1 lon1, hav_comm lat1 lon1 lat2 lon2⟩

/-- Claim C8, counterexample: the `routes.py` copy of `haversine_distance`
returns `0`, not `+∞`, when an argument fails to parse as a number. -/
theorem haversine_routes_invalid_returns_zero :
    Routes.haversine_distance none (some 0) (some 0) (some 0) = .val 0 ∧
    (PyFloat.val 0 : PyFloat) ≠ .posInf := by
  exact ⟨rfl, by simp⟩

/-- Claim C8, amended: on input that fails to parse as valid numbers, the
`app.py` implementation of `haversine_distance` returns `+∞` rather than
raising; the `routes.py` copy instead returns `0`, and the `guardrails.py`
copy propagates the exception. -/
theorem haversine_invalid_input_behaviour (lat1 lon1 lat2 lon2 : Option ℝ)
    (h : lat1 = none ∨ lon1 = none ∨ lat2 = none ∨ lon2 = none) :
    App.haversine_distance lat1 lon1 lat2 lon2 = .posInf ∧
    Routes.haversine_distance lat1 lon1 lat2 lon2 = .val 0 ∧
    Guardrails.haversine_distance lat1 lon1 lat2 lon2 = .exn := by
  rcases lat1 with _ | a <;> rcases lon1 with _ | b <;>
    rcases lat2 with _ | c <;> rcases lon2 with _ | d <;>
    simp_all [App.haversine_distance, Routes.haversine_distance,
      Guardrails.haversine_distance]

/-- Claim C8, witness: concrete invalid input on which `app.py`'s
`haversine_distance` returns `+∞`. -/
theorem haversine_invalid_input_behaviour_witness :
    ((none : Option ℝ) = none ∨ (some (0:ℝ)) = none ∨
      (some (0:ℝ)) = none ∨ (some (0:ℝ)) = none) ∧
    App.haversine_distance none (some 0) (some 0) (some 0) = .posInf :=
  ⟨Or.inl rfl,
    (haversine_invalid_input_behaviour none (some 0) (some 0) (some 0)
      (Or.inl rfl)).1⟩

end

/-! ## Safety datasets

The three CSV-backed pandas dataframes become lists of rows.  The scoring
path reads `population_density`, `traffic_level` and `is_main_road` from the
population data, while `check_isolated_areas` in `guardrails.py` (line 128)
reads a `population` column; the row structure carries all of them. -/

structure CrimeRow (α : Type) where
  lat : α
  lon : α

structure LightRow (α : Type) where
  lat : α
  lon : α
  lighting_score : α

structure PopRow (α : Type) where
  lat : α
  lon : α
  population_density : α
  traffic_level : α
  is_main_road : α
  population : α

/-- Model of `np.clip(x, lo, hi)`. -/
def npClip {α : Type} [LinearOrder α] (x lo hi : α) : α := min (max x lo) hi

/-! ## Guardrail engine (`app/safety/guardrails.py`)

All arithmetic here is rational, so the engine is modelled generically over
a `LinearOrderedField` with a floor function; claims about it are proved
generically and can be evaluated at `ℚ`.  A timestamp is modelled as seconds
`t : α`, with `datetime.hour` becoming `hourOf t` (a fixed timezone offset
is absorbed by quantifying over `t`). -/

section GuardrailEngine

variable {α : Type} [LinearOrderedField α] [FloorRing α]

/-- Hour-of-day of a timestamp in seconds, modelling `datetime.hour`. -/
def hourOf (t : α) : ℤ := ⌊t / 3600⌋ % 24

/-- Model of `check_time_based_safety` (guardrails.py lines 150-187);
returns `(is_safe, time_factor, warnings)`. -/
def check_time_based_safety (current_time route_duration_seconds : α) :
    Bool × α × List String :=
  let hour := hourOf current_time
  let is_late_night := 23 ≤ hour ∨ hour < 5
  let is_early_morning := 5 ≤ hour ∧ hour < 7
  let base : Bool × α × List String :=
    if is_late_night then
      (false, 0.5,
        ["Travel during late night hours (11 PM - 5 AM) significantly increases risk"])
    else if is_early_morning then
      (true, 0.8,
        ["Travel during early morning hours (5 AM - 7 AM) moderately increases risk"])
    else (true, 1, [])
  let end_hour := hourOf (current_time + route_duration_seconds)
  if ¬is_late_night ∧ (23 ≤ end_hour ∨ end_hour < 5) then
    (base.1, base.2.1 * 0.8, base.2.2 ++ ["Route extends into late night hours"])
  else base

/-- Count of crime rows within the `threshold_distance / 111` degree box of
a point (`check_crime_hotspots` inner query). -/
def crimesNearBox (crime : List (CrimeRow α)) (lat lon thr : α) : ℕ :=
  (crime.filter fun c =>
    decide (|c.lat - lat| < thr / 111) && decide (|c.lon - lon| < thr / 111)).length

/-- Model of `check_crime_hotspots` (guardrails.py lines 20-60) with its
default arguments `threshold_distance=0.5`, `max_crimes=20`. -/
def check_crime_hotspots (route_coords : List (α × α))
    (crime_data : List (CrimeRow α)) : Bool × ℕ × List String :=
  let counts := route_coords.map fun p => crimesNearBox crime_data p.1 p.2 0.5
  let max_crime_count := counts.foldl max 0
  let is_safe := max_crime_count ≤ 20
  (decide is_safe, max_crime_count,
    if is_safe then [] else ["Route passes through crime hotspots"])

/-- Count of lighting rows within the fixed `0.005` degree box of a point
(`check_lighting_coverage` inner query). -/
def lightsNearBox (lighting : List (LightRow α)) (lat lon : α) : ℕ :=
  (lighting.filter fun r =>
    decide (|r.lat - lat| < 0.005) && decide (|r.lon - lon| < 0.005)).length

/-- Model of `check_lighting_coverage` (guardrails.py lines 62-102) with
`min_lights_per_segment=2`. -/
def check_lighting_coverage (route_coords : List (α × α))
    (lighting_data : List (LightRow α)) : Bool × α × List String :=
  let light_counts := route_coords.map fun p => lightsNearBox lighting_data p.1 p.2
  let poorly_lit := (light_counts.filter fun n => decide (n < 2)).length
  let avg_lights : α :=
    if light_counts.length = 0 then 0
    else (light_counts.map fun n => (n : α)).sum / light_counts.length
  let poorly_lit_pct : α :=
    if route_coords.length = 0 then 0
    else ((poorly_lit : α) / route_coords.length) * 100
  let is_safe := poorly_lit_pct < 30
  (decide is_safe, avg_lights,
    if is_safe then [] else ["Route has inadequate lighting"])

/-- Population rows within the fixed `0.005` degree box of a point
(`check_isolated_areas` inner query). -/
def popNearBox (pop : List (PopRow α)) (lat lon : α) : List (PopRow α) :=
  pop.filter fun r =>
    decide (|r.lat - lat| < 0.005) && decide (|r.lon - lon| < 0.005)

/-- Model of `check_isolated_areas` (guardrails.py lines 104-148) with
`min_population=50`; note it reads the `population` column. -/
def check_isolated_areas (route_coords : List (α × α))
    (population_data : List (PopRow α)) : Bool × α × List String :=
  let scores := route_coords.map fun p =>
    let near := popNearBox population_data p.1 p.2
    if near.length = 0 then 0 else (near.map PopRow.population).sum / near.length
  let isolated := (scores.filter fun s => decide (s < 50)).length
  let avg := if scores.length = 0 then 0 else scores.sum / scores.length
  let isolated_pct : α :=
    if route_coords.length = 0 then 0
    else ((isolated : α) / route_coords.length) * 100
  let is_safe := isolated_pct < 75
  (decide is_safe, avg,
    if is_safe then [] else ["Route passes through isolated areas"])

/-- One element of the `steps` list handed to `apply_safety_guardrails`.
A `pair` step models a raw `[lat, lon]` polyline element: in Python,
`'start_location' in [lat, lon]` is `False`, so such a step contributes no
coordinates.  A `locs` step models a dict carrying `start_location` and
`end_location`. -/
inductive GStep (α : Type) where
  | pair (lat lon : α)
  | locs (start_lat start_lon end_lat end_lon : α)

/-- Coordinate extraction loop of `apply_safety_guardrails` (guardrails.py
lines 210-223). -/
def extract_route_coords : List (GStep α) → List (α × α)
  | [] => []
  | .pair _ _ :: rest => extract_route_coords rest
  | .locs a b c d :: rest => (a, b) :: (c, d) :: extract_route_coords rest

/-- Model of `apply_safety_guardrails` (guardrails.py lines 189-273);
returns `(is_valid, adjusted_score, warnings)`.  `route_duration` is the
`duration` entry of the route dict, in seconds. -/
def apply_safety_guardrails (route_steps : List (GStep α)) (route_duration : α)
    (safety_score : α) (current_time : α)
    (crime_data : Option (List (CrimeRow α)))
    (lighting_data : Option (List (LightRow α)))
    (population_data : Option (List (PopRow α))) : Bool × α × List String :=
  let route_coords := extract_route_coords route_steps
  let hour := hourOf current_time
  let tc := check_time_based_safety current_time route_duration
  let a1 := safety_score * tc.2.1
  let w1 := tc.2.2
  let is_valid := decide ¬(tc.1 = false ∧ 0 ≤ hour ∧ hour < 3)
  let s2 : α × List String :=
    match crime_data with
    | some cd =>
        if 0 < route_coords.length then
          let cc := check_crime_hotspots route_coords cd
          (if cc.1 then a1 else a1 * 0.7, w1 ++ cc.2.2)
        else (a1, w1)
    | none => (a1, w1)
  let s3 : α × List String :=
    match lighting_data with
    | some ld =>
        if 0 < route_coords.length then
          let lc := check_lighting_coverage route_coords ld
          (if lc.1 = false ∧ (hour < 6 ∨ 20 ≤ hour) then s2.1 * 0.8 else s2.1,
            s2.2 ++ lc.2.2)
        else s2
    | none => s2
  let s4 : α × List String :=
    match population_data with
    | some pd =>
        if 0 < route_coords.length then
          let ic := check_isolated_areas route_coords pd
          (if ic.1 then s3.1 else s3.1 * 0.8, s3.2 ++ ic.2.2)
        else s3
    | none => s3
  (is_valid, npClip s4.1 0 100, s4.2)

end GuardrailEngine

/-! ## Composite ranking score

`calculate_composite_score` exists twice in the source with different
main-road bonuses: `app.py` lines 529-567 and `app/routes.py` lines
2096-2130.  Both are modelled generically. -/

structure PrefsG (α : Type) where
  prefer_main_roads : Bool
  prefer_well_lit : Bool
  prefer_populated : Bool
  safety_weight : α
  distance_weight : α

/-- Route-dict fields read by the composite scorers (all present on every
pool entry). -/
structure RouteMetricsG (α : Type) where
  safety_score : α
  distance_km : α
  crime_density : α
  max_crime_exposure : α
  main_road_percentage : α
  lighting_score : α
  population_score : α

namespace App

/-- Model of `calculate_composite_score` in `app.py` (lines 529-567): with
`prefer_main_roads` the bonus is `(pct/100)*0.35`, plus `0.15` more when
`pct > 70`. -/
def calculate_composite_score {α : Type} [LinearOrderedField α]
    (route : RouteMetricsG α) (preferences : PrefsG α) : α :=
  let normalized_safety := route.safety_score / 100
  let normalized_distance := max 0 (1 - route.distance_km / 30)
  let crime_penalty :=
    min 1 ((route.crime_density * 0.3 + route.max_crime_exposure * 0.7) / 20)
  let safety_component := normalized_safety * (1 - crime_penalty * 0.5)
  let b1 : α :=
    if preferences.prefer_main_roads then
      (route.main_road_percentage / 100) * 0.35 +
        (if 70 < route.main_road_percentage then 0.15 else 0)
    else 0
  let b2 : α :=
    if preferences.prefer_well_lit then (route.lighting_score / 10) * 0.15 else 0
  let b3 : α :=
    if preferences.prefer_populated then (route.population_score / 10) * 0.15 else 0
  safety_component * preferences.safety_weight +
    normalized_distance * preferences.distance_weight + (b1 + b2 + b3)

end App

namespace Routes

/-- Model of `calculate_composite_score` in `app/routes.py` (lines
2096-2130): the main-road bonus is `(pct/100)*0.15` with no extra term. -/
def calculate_composite_score {α : Type} [LinearOrderedField α]
    (route : RouteMetricsG α) (preferences : PrefsG α) : α :=
  let normalized_safety := route.safety_score / 100
  let normalized_distance := max 0 (1 - route.distance_km / 30)
  let crime_penalty :=
    min 1 ((route.crime_density * 0.3 + route.max_crime_exposure * 0.7) / 20)
  let safety_component := normalized_safety * (1 - crime_penalty * 0.5)
  let b1 : α :=
    if preferences.prefer_main_roads then (route.main_road_percentage / 100) * 0.15
    else 0
  let b2 : α :=
    if preferences.prefer_well_lit then (route.lighting_score / 10) * 0.15 else 0
  let b3 : α :=
    if preferences.prefer_populated then (route.population_score / 10) * 0.15 else 0
  safety_component * preferences.safety_weight +
    normalized_distance * preferences.distance_weight + (b1 + b2 + b3)

end Routes


/-! ## Time-of-day guardrail behaviour (claims C4, C7) -/

section TimeGuardrail

variable {α : Type} [LinearOrderedField α] [FloorRing α]

lemma hourOf_nonneg (t : α) : 0 ≤ hourOf t :=
  Int.emod_nonneg _ (by norm_num)

lemma hourOf_lt_24 (t : α) : hourOf t < 24 :=
  Int.emod_lt_of_pos _ (by norm_num)

lemma check_time_fst (t dur : α) :
    ((check_time_based_safety t dur).1 = false ↔
      (23 ≤ hourOf t ∨ hourOf t < 5)) := by
  simp only [check_time_based_safety]
  split_ifs <;> simp_all

lemma check_time_factor (t dur : α) :
    (check_time_based_safety t dur).2.1 =
      (if 23 ≤ hourOf t ∨ hourOf t < 5 then (0.5 : α)
        else if 5 ≤ hourOf t ∧ hourOf t < 7 then 0.8 else 1) *
      (if ¬(23 ≤ hourOf t ∨ hourOf t < 5) ∧
          (23 ≤ hourOf (t + dur) ∨ hourOf (t + dur) < 5) then (0.8 : α) else 1) := by
  simp only [check_time_based_safety]
  split_ifs <;> simp_all

lemma apply_guardrails_isValid (steps : List (GStep α)) (dur score t : α)
    (cd : Option (List (CrimeRow α))) (ld : Option (List (LightRow α)))
    (pd : Option (List (PopRow α))) :
    ((apply_safety_guardrails steps dur score t cd ld pd).1 = false ↔
      (0 ≤ hourOf t ∧ hourOf t < 3)) := by
  simp only [apply_safety_guardrails, decide_eq_false_iff_not, not_not]
  constructor
  · rintro ⟨-, h⟩; exact h
  · rintro ⟨h0, h3⟩
    exact ⟨(check_time_fst t dur).mpr (Or.inr (lt_trans h3 (by norm_num))), h0, h3⟩

end TimeGuardrail

/-- Claim C4: for every route and clock time, the guardrail engine applies a
0.5 score factor when the current hour is in `[23,5)`, 0.8 when it is in
`[5,7)`, and an additional 0.8 when the projected end hour falls into
`[23,5)` though the start hour did not (which alone never rejects); and
`apply_safety_guardrails` sets `is_valid=false` if and only if the current
hour is in `[0,3)` — in particular it rejects at hour 1 and accepts at hour
14. -/
theorem guardrail_time_of_day (α : Type) [LinearOrderedField α] [FloorRing α]
    (steps : List (GStep α)) (dur score t : α)
    (cd : Option (List (CrimeRow α))) (ld : Option (List (LightRow α)))
    (pd : Option (List (PopRow α))) :
    ((23 ≤ hourOf t ∨ hourOf t < 5) → (check_time_based_safety t dur).2.1 = 0.5) ∧
    ((5 ≤ hourOf t ∧ hourOf t < 7) →
      ¬(23 ≤ hourOf (t + dur) ∨ hourOf (t + dur) < 5) →
      (check_time_based_safety t dur).2.1 = 0.8) ∧
    ((5 ≤ hourOf t ∧ hourOf t < 7) →
      (23 ≤ hourOf (t + dur) ∨ hourOf (t + dur) < 5) →
      (check_time_based_safety t dur).2.1 = 0.8 * 0.8) ∧
    (¬(23 ≤ hourOf t ∨ hourOf t < 5) → ¬(5 ≤ hourOf t ∧ hourOf t < 7) →
      (23 ≤ hourOf (t + dur) ∨ hourOf (t + dur) < 5) →
      (check_time_based_safety t dur).2.1 = 1 * 0.8) ∧
    ((apply_safety_guardrails steps dur score t cd ld pd).1 = false ↔
      (0 ≤ hourOf t ∧ hourOf t < 3)) ∧
    (hourOf t = 1 →
      (apply_safety_guardrails steps dur score t cd ld pd).1 = false) ∧
    (hourOf t = 14 →
      (apply_safety_guardrails steps dur score t cd ld pd).1 = true) := by
  have hf := check_time_factor t dur
  have hv := apply_guardrails_isValid steps dur score t cd ld pd
  refine ⟨?_, ?_, ?_, ?_, hv, ?_, ?_⟩
  · intro h
    have hne : ¬(¬(23 ≤ hourOf t ∨ hourOf t < 5) ∧
        (23 ≤ hourOf (t + dur) ∨ hourOf (t + dur) < 5)) := by
      rintro ⟨h2, -⟩; exact h2 h
    rw [hf, if_pos h, if_neg hne]; ring
  · intro h1 h2
    have hl : ¬(23 ≤ hourOf t ∨ hourOf t < 5) := by
      rintro (h3 | h3) <;> omega
    rw [hf, if_neg hl, if_pos h1, if_neg (by rintro ⟨-, h3⟩; exact h2 h3)]; ring
  · intro h1 h2
    have hl : ¬(23 ≤ hourOf t ∨ hourOf t < 5) := by
      rintro (h3 | h3) <;> omega
    rw [hf, if_neg hl, if_pos h1, if_pos ⟨hl, h2⟩]
  · intro h1 h2 h3
    rw [hf, if_neg h1, if_neg h2, if_pos ⟨h1, h3⟩]
  · intro h1
    exact hv.mpr (by omega)
  · intro h1
    have : ¬(0 ≤ hourOf t ∧ hourOf t < 3) := by omega
    rcases Bool.eq_false_or_eq_true
        (apply_safety_guardrails steps dur score t cd ld pd).1 with h | h
    · exact h
    · exact absurd (hv.mp h) this

/-- Claim C4, witness: at `t = 3600` seconds (hour 1) the engine rejects,
at `t = 50400` (hour 14) it accepts. -/
theorem guardrail_time_of_day_witness :
    hourOf (3600 : ℚ) = 1 ∧ hourOf (50400 : ℚ) = 14 ∧
    (apply_safety_guardrails ([] : List (GStep ℚ)) 0 50 3600 none none none).1
      = false ∧
    (apply_safety_guardrails ([] : List (GStep ℚ)) 0 50 50400 none none none).1
      = true := by
  have h1 : hourOf (3600 : ℚ) = 1 := by norm_num [hourOf]
  have h14 : hourOf (50400 : ℚ) = 14 := by norm_num [hourOf]
  exact ⟨h1, h14,
    (guardrail_time_of_day ℚ [] 0 50 3600 none none none).2.2.2.2.2.1 h1,
    (guardrail_time_of_day ℚ [] 0 50 50400 none none none).2.2.2.2.2.2 h14⟩

/-- Claim C7, amended: in the `app.py` composite scorer, enabling
`prefer_main_roads` adds the bonus `(main_road_pct/100)*0.35`, plus `0.15`
more when `main_road_pct > 70`; the duplicate scorer in `routes.py` instead
adds `(main_road_pct/100)*0.15` with no extra high-coverage term. -/
theorem composite_main_road_bonus (α : Type) [LinearOrderedField α]
    (m : RouteMetricsG α) (p : PrefsG α) :
    (App.calculate_composite_score m { p with prefer_main_roads := true } -
      App.calculate_composite_score m { p with prefer_main_roads := false } =
      (m.main_road_percentage / 100) * 0.35 +
        (if 70 < m.main_road_percentage then (0.15 : α) else 0)) ∧
    (Routes.calculate_composite_score m { p with prefer_main_roads := true } -
      Routes.calculate_composite_score m { p with prefer_main_roads := false } =
      (m.main_road_percentage / 100) * 0.15) := by
  unfold App.calculate_composite_score Routes.calculate_composite_score
  constructor <;> simp

/-- Concrete metrics used to separate the two composite scorers: a route
fully on main roads. -/
def exampleMetricsQ : RouteMetricsG ℚ :=
  { safety_score := 50, distance_km := 10, crime_density := 0,
    max_crime_exposure := 0, main_road_percentage := 100,
    lighting_score := 5, population_score := 5 }

def examplePrefsOn : PrefsG ℚ :=
  { prefer_main_roads := true, prefer_well_lit := false,
    prefer_populated := false, safety_weight := 0.7, distance_weight := 0.3 }

def examplePrefsOff : PrefsG ℚ :=
  { prefer_main_roads := false, prefer_well_lit := false,
    prefer_populated := false, safety_weight := 0.7, distance_weight := 0.3 }

/-- Claim C7, counterexample: for a route with `main_road_pct = 100`, the
`routes.py` composite scorer's main-road bonus is `3/20 = 0.15`, not the
claimed `(100/100)*0.35 + 0.15 = 0.5`. -/
theorem composite_routes_bonus_counterexample :
    (Routes.calculate_composite_score exampleMetricsQ examplePrefsOn -
      Routes.calculate_composite_score exampleMetricsQ examplePrefsOff =
      (3 : ℚ) / 20) ∧
    ((3 : ℚ) / 20) ≠
      (exampleMetricsQ.main_road_percentage / 100) * 0.35 +
        (if 70 < exampleMetricsQ.main_road_percentage then (0.15 : ℚ) else 0) := by
  constructor
  · norm_num [Routes.calculate_composite_score, exampleMetricsQ, examplePrefsOn,
      examplePrefsOff]
  · norm_num [exampleMetricsQ]

/-! ## Route geometry, spatial queries and the safety scorer

`app.py` lines 190-455; the same functions appear verbatim in
`app/routes.py` lines 1745-2022.  Python floats are `ℝ` here (the scorer
uses the non-rational powers `** 1.2` and `** 1.4`), so this part of the
model is noncomputable. -/

noncomputable section

/-- A polyline point `[lat, lon]`. -/
structure Pt where
  lat : ℝ
  lon : ℝ

/-- Model of Python `round(x, 2)` (used on every metric the scorer
returns). -/
def round2 (x : ℝ) : ℝ := (round (x * 100) : ℤ) / 100

lemma round2_mono {x y : ℝ} (h : x ≤ y) : round2 x ≤ round2 y := by
  unfold round2
  have : round (x * 100) ≤ round (y * 100) := by
    rw [round_eq, round_eq]
    exact Int.floor_mono (by linarith)
  have h100 : (0:ℝ) < 100 := by norm_num
  rw [div_le_div_iff₀ h100 h100]
  exact_mod_cast mul_le_mul_of_nonneg_right this (by norm_num)

lemma round2_zero : round2 0 = 0 := by
  unfold round2; norm_num

/-- Model of `calculate_crime_exposure` (app.py lines 198-207): count of
crime rows in the `radius` degree box around the point. -/
def calculate_crime_exposure (crime_data : List (CrimeRow ℝ))
    (lat lon radius : ℝ) : ℕ :=
  (crime_data.filter fun c =>
    decide (|c.lat - lat| < radius) && decide (|c.lon - lon| < radius)).length

/-- Model of `calculate_lighting_score` (app.py lines 209-217): mean
`lighting_score` of rows in the box, defaulting to `5.0`. -/
def calculate_lighting_score (lighting_data : List (LightRow ℝ))
    (lat lon radius : ℝ) : ℝ :=
  let nearby := lighting_data.filter fun q =>
    decide (|q.lat - lat| < radius) && decide (|q.lon - lon| < radius)
  if 0 < nearby.length then
    (nearby.map LightRow.lighting_score).sum / nearby.length
  else 5

/-- Model of `calculate_population_score` (app.py lines 219-233): returns
`(population_density mean / 1000, traffic mean / 10, is_main_road mean >
0.5)`, defaulting to `(5, 5, False)`. -/
def calculate_population_score (population_data : List (PopRow ℝ))
    (lat lon radius : ℝ) : ℝ × ℝ × Bool :=
  let nearby := population_data.filter fun q =>
    decide (|q.lat - lat| < radius) && decide (|q.lon - lon| < radius)
  if 0 < nearby.length then
    ((nearby.map PopRow.population_density).sum / nearby.length / 1000,
      (nearby.map PopRow.traffic_level).sum / nearby.length / 10,
      decide (0.5 < (nearby.map PopRow.is_main_road).sum / nearby.length))
  else (5, 5, false)

/-- Helper for Python slicing `l[::k]` (take an element, skip `k-1`); the
counter argument is the distance to the next kept index. -/
def everyKth {β : Type} (k : ℕ) : List β → ℕ → List β
  | [], _ => []
  | a :: t, 0 => a :: everyKth k t (k - 1)
  | _ :: t, m + 1 => everyKth k t m

/-- Python `l[::k]` for `k ≥ 1`. -/
def sliceEvery {β : Type} (l : List β) (k : ℕ) : List β := everyKth k l 0

lemma sliceEvery_one {β : Type} : ∀ l : List β, sliceEvery l 1 = l := by
  intro l
  suffices h : ∀ l : List β, everyKth 1 l 0 = l from h l
  intro l
  induction l with
  | nil => rfl
  | cons a t ih => simpa [everyKth] using ih

lemma everyKth_sublist {β : Type} (k : ℕ) : ∀ (l : List β) (m : ℕ), List.Sublist (everyKth k l m) l := by
  intro l
  induction l with
  | nil => intro m; simp [everyKth]
  | cons a t ih =>
    intro m
    cases m with
    | zero => exact (ih (k - 1)).cons₂ a
    | succ m => exact (ih m).cons a

lemma sliceEvery_cons {β : Type} (k : ℕ) (a : β) (t : List β) :
    sliceEvery (a :: t) k = a :: everyKth k t (k - 1) := rfl

/-- The per-route safety metrics dict returned by the comprehensive
scorer. -/
structure SafetyMetrics where
  safety_score : ℝ
  crime_density : ℝ
  max_crime_exposure : ℝ
  crime_hotspot_percentage : ℝ
  lighting_score : ℝ
  population_score : ℝ
  traffic_score : ℝ
  main_road_percentage : ℝ
  crime_density_score : ℝ

/-- Model of `calculate_route_safety_comprehensive` (app.py lines 378-455).
The single Python loop over sampled points is expressed as maps over the
sampled list; `None` is returned exactly when the route has fewer than two
points (the `try` body raises on no other input). -/
def calculate_route_safety_comprehensive (crime_data : List (CrimeRow ℝ))
    (lighting_data : List (LightRow ℝ)) (population_data : List (PopRow ℝ))
    (route : List Pt) (preferences : PrefsG ℝ) : Option SafetyMetrics :=
  if route.length < 2 then none
  else
    let sample_rate := max 1 (route.length / 50)
    let sampled := sliceEvery route sample_rate
    let counts : List ℕ := sampled.map fun p =>
      calculate_crime_exposure crime_data p.lat p.lon 0.003
    let lightScores := sampled.map fun p =>
      calculate_lighting_score lighting_data p.lat p.lon 0.005
    let popTriples := sampled.map fun p =>
      calculate_population_score population_data p.lat p.lon 0.005
    let n : ℝ := sampled.length
    let avg_crime : ℝ := (counts.map (Nat.cast : ℕ → ℝ)).sum / n
    let max_crime : ℝ := ((counts.foldl max 0 : ℕ) : ℝ)
    let crime_hotspot_pct : ℝ :=
      (((counts.filter fun c => decide (3 < c)).length : ℝ) / n) * 100
    let avg_lighting := lightScores.sum / n
    let avg_population := (popTriples.map fun q => q.1).sum / n
    let avg_traffic := (popTriples.map fun q => q.2.1).sum / n
    let main_road_pct : ℝ :=
      (((popTriples.filter fun q => q.2.2).length : ℝ) / n) * 100
    let base_crime_penalty := min 40 (avg_crime ^ (1.2 : ℝ) * 5)
    let max_crime_penalty := min 40 (max_crime ^ (1.4 : ℝ) * 7)
    let hotspot_penalty := min 30 (crime_hotspot_pct * 0.5)
    let total_crime_penalty := base_crime_penalty + max_crime_penalty + hotspot_penalty
    let base_safety_score := max 0 (100 - total_crime_penalty)
    let lighting_multiplier :=
      1 + (avg_lighting / 10) * (if preferences.prefer_well_lit then 2.5 else 0.8)
    let population_multiplier :=
      1 + (avg_population / 10) * (if preferences.prefer_populated then 2.0 else 0.6)
    let traffic_multiplier :=
      1 + (avg_traffic / 10) * (if preferences.prefer_populated then 1.5 else 0.4)
    let main_road_multiplier :=
      1 + (main_road_pct / 100) * (if preferences.prefer_main_roads then 2.5 else 0.7)
    let total_multiplier := (lighting_multiplier + population_multiplier +
      traffic_multiplier + main_road_multiplier) / 4
    let final_safety_score := min 100 (base_safety_score * total_multiplier)
    let crime_density_score := 100 - min 100 (avg_crime * 10)
    some
      { safety_score := round2 final_safety_score
        crime_density := round2 avg_crime
        max_crime_exposure := round2 max_crime
        crime_hotspot_percentage := round2 crime_hotspot_pct
        lighting_score := round2 avg_lighting
        population_score := round2 avg_population
        traffic_score := round2 avg_traffic
        main_road_percentage := round2 main_road_pct
        crime_density_score := round2 crime_density_score }

/-- The `safety_score` of an optional metrics record (`0` when absent). -/
def safetyScoreOf (o : Option SafetyMetrics) : ℝ :=
  (o.map SafetyMetrics.safety_score).getD 0

end

/-! ## Monotonicity of the safety scorer in crime (claim C6) -/

lemma sliceEvery_length_pos {β : Type} {l : List β} (h : l ≠ []) (k : ℕ) :
    0 < (sliceEvery l k).length := by
  cases l with
  | nil => exact absurd rfl h
  | cons a t => rw [sliceEvery_cons]; simp

lemma foldl_max_le {β : Type} (f g : β → ℕ) :
    ∀ s : List β, (∀ b ∈ s, f b ≤ g b) → ∀ i j : ℕ, i ≤ j →
      (s.map f).foldl max i ≤ (s.map g).foldl max j := by
  intro s
  induction s with
  | nil => intro _ i j hij; simpa using hij
  | cons b t ih =>
    intro h i j hij
    simp only [List.map_cons, List.foldl_cons]
    exact ih (fun x hx => h x (List.mem_cons_of_mem b hx)) _ _
      (max_le_max hij (h b (List.mem_cons_self b t)))

lemma filterCount_le {β : Type} (f g : β → ℕ) (s : List β)
    (h : ∀ b ∈ s, f b ≤ g b) :
    ((s.map f).filter fun c => decide (3 < c)).length ≤
      ((s.map g).filter fun c => decide (3 < c)).length := by
  rw [← List.countP_eq_length_filter, ← List.countP_eq_length_filter,
    List.countP_map, List.countP_map]
  apply List.countP_mono_left
  intro x hx
  simp only [Function.comp, decide_eq_true_eq]
  intro h3
  exact lt_of_lt_of_le h3 (h x hx)

lemma lighting_score_nonneg (lighting : List (LightRow ℝ))
    (hl : ∀ q ∈ lighting, 0 ≤ q.lighting_score) (lat lon r : ℝ) :
    0 ≤ calculate_lighting_score lighting lat lon r := by
  simp only [calculate_lighting_score]
  split_ifs with h
  · apply div_nonneg
    · apply List.sum_nonneg
      intro x hx
      obtain ⟨q, hq, rfl⟩ := List.mem_map.mp hx
      exact hl q (List.mem_of_mem_filter hq)
    · positivity
  · norm_num

lemma population_score_nonneg (pop : List (PopRow ℝ))
    (hp : ∀ q ∈ pop, 0 ≤ q.population_density ∧ 0 ≤ q.traffic_level)
    (lat lon r : ℝ) :
    0 ≤ (calculate_population_score pop lat lon r).1 ∧
      0 ≤ (calculate_population_score pop lat lon r).2.1 := by
  simp only [calculate_population_score]
  split_ifs with h
  · dsimp only
    refine ⟨div_nonneg (div_nonneg (List.sum_nonneg fun x hx => ?_) (by positivity))
        (by norm_num),
      div_nonneg (div_nonneg (List.sum_nonneg fun x hx => ?_) (by positivity))
        (by norm_num)⟩
    · obtain ⟨q, hq, rfl⟩ := List.mem_map.mp hx
      exact (hp q (List.mem_of_mem_filter hq)).1
    · obtain ⟨q, hq, rfl⟩ := List.mem_map.mp hx
      exact (hp q (List.mem_of_mem_filter hq)).2
  · norm_num

/-- Claim C6, amended: with nonnegative lighting, population-density and
traffic data, pointwise increasing the injected crime counts at route
points never increases the resulting `safety_score` (weak monotonicity);
the decrease is not strict in general because all three crime penalty
terms are capped (see the counterexample theorem for saturation). -/
theorem scorer_monotone_in_crime (route : List Pt) (prefs : PrefsG ℝ)
    (crime1 crime2 : List (CrimeRow ℝ)) (lighting : List (LightRow ℝ))
    (pop : List (PopRow ℝ))
    (hmono : ∀ lat lon, calculate_crime_exposure crime1 lat lon 0.003 ≤
      calculate_crime_exposure crime2 lat lon 0.003)
    (hlight : ∀ q ∈ lighting, 0 ≤ q.lighting_score)
    (hpop : ∀ q ∈ pop, 0 ≤ q.population_density ∧ 0 ≤ q.traffic_level) :
    safetyScoreOf
        (calculate_route_safety_comprehensive crime2 lighting pop route prefs) ≤
      safetyScoreOf
        (calculate_route_safety_comprehensive crime1 lighting pop route prefs) := by
  by_cases hlen : route.length < 2
  · simp [calculate_route_safety_comprehensive, hlen, safetyScoreOf]
  · have hroute : route ≠ [] := by
      intro h; rw [h] at hlen; simp at hlen
    simp only [calculate_route_safety_comprehensive, if_neg hlen, safetyScoreOf,
      Option.map_some', Option.getD_some]
    apply round2_mono
    set s := sliceEvery route (max 1 (route.length / 50)) with hs
    have hslen : 0 < s.length := by rw [hs]; exact sliceEvery_length_pos hroute _
    have hn : (0:ℝ) < (s.length : ℝ) := by exact_mod_cast hslen
    have hA : (List.map (Nat.cast : ℕ → ℝ)
          (List.map (fun p => calculate_crime_exposure crime1 p.lat p.lon 0.003) s)).sum ≤
        (List.map (Nat.cast : ℕ → ℝ)
          (List.map (fun p => calculate_crime_exposure crime2 p.lat p.lon 0.003) s)).sum := by
      rw [List.map_map, List.map_map]
      exact List.sum_le_sum fun p _ => by
        simp only [Function.comp_apply, Nat.cast_le]
        exact hmono p.lat p.lon
    have hB : ((List.foldl max 0
          (List.map (fun p => calculate_crime_exposure crime1 p.lat p.lon 0.003) s) : ℕ) : ℝ) ≤
        ((List.foldl max 0
          (List.map (fun p => calculate_crime_exposure crime2 p.lat p.lon 0.003) s) : ℕ) : ℝ) := by
      exact_mod_cast foldl_max_le _ _ s (fun b _ => hmono b.lat b.lon) 0 0 le_rfl
    have hC : ((List.filter (fun c => decide (3 < c))
          (List.map (fun p => calculate_crime_exposure crime1 p.lat p.lon 0.003) s)).length : ℝ) ≤
        ((List.filter (fun c => decide (3 < c))
          (List.map (fun p => calculate_crime_exposure crime2 p.lat p.lon 0.003) s)).length : ℝ) := by
      exact_mod_cast filterCount_le _ _ s fun b _ => hmono b.lat b.lon
    have hLnn : (0:ℝ) ≤
        (List.map (fun p => calculate_lighting_score lighting p.lat p.lon 0.005) s).sum := by
      apply List.sum_nonneg
      intro x hx
      obtain ⟨q, _, rfl⟩ := List.mem_map.mp hx
      exact lighting_score_nonneg lighting hlight q.lat q.lon 0.005
    have hPnn : (0:ℝ) ≤
        (List.map (fun q => q.1)
          (List.map (fun p => calculate_population_score pop p.lat p.lon 0.005) s)).sum := by
      apply List.sum_nonneg
      intro x hx
      rw [List.map_map] at hx
      obtain ⟨q, _, rfl⟩ := List.mem_map.mp hx
      exact (population_score_nonneg pop hpop q.lat q.lon 0.005).1
    have hTnn : (0:ℝ) ≤
        (List.map (fun q => q.2.1)
          (List.map (fun p => calculate_population_score pop p.lat p.lon 0.005) s)).sum := by
      apply List.sum_nonneg
      intro x hx
      rw [List.map_map] at hx
      obtain ⟨q, _, rfl⟩ := List.mem_map.mp hx
      exact (population_score_nonneg pop hpop q.lat q.lon 0.005).2
    have hw1 : (0:ℝ) ≤ if prefs.prefer_well_lit = true then 2.5 else 0.8 := by
      split_ifs <;> norm_num
    have hw2 : (0:ℝ) ≤ if prefs.prefer_populated = true then 2.0 else 0.6 := by
      split_ifs <;> norm_num
    have hw3 : (0:ℝ) ≤ if prefs.prefer_populated = true then 1.5 else 0.4 := by
      split_ifs <;> norm_num
    have hw4 : (0:ℝ) ≤ if prefs.prefer_main_roads = true then 2.5 else 0.7 := by
      split_ifs <;> norm_num
    have hA1nn : (0:ℝ) ≤ (List.map (Nat.cast : ℕ → ℝ)
        (List.map (fun p => calculate_crime_exposure crime1 p.lat p.lon 0.003) s)).sum := by
      apply List.sum_nonneg
      intro x hx
      obtain ⟨c, _, rfl⟩ := List.mem_map.mp hx
      exact Nat.cast_nonneg c
    apply min_le_min le_rfl
    apply mul_le_mul_of_nonneg_right
    · apply max_le_max le_rfl
      apply sub_le_sub_left
      apply add_le_add (add_le_add ?_ ?_) ?_
      · apply min_le_min le_rfl
        apply mul_le_mul_of_nonneg_right ?_ (by norm_num)
        exact Real.rpow_le_rpow (div_nonneg hA1nn hn.le)
          ((div_le_div_iff_of_pos_right hn).mpr hA) (by norm_num)
      · apply min_le_min le_rfl
        apply mul_le_mul_of_nonneg_right ?_ (by norm_num)
        exact Real.rpow_le_rpow (Nat.cast_nonneg _) hB (by norm_num)
      · apply min_le_min le_rfl
        apply mul_le_mul_of_nonneg_right ?_ (by norm_num)
        apply mul_le_mul_of_nonneg_right ?_ (by norm_num)
        exact (div_le_div_iff_of_pos_right hn).mpr hC
    · apply div_nonneg ?_ (by norm_num)
      apply add_nonneg (add_nonneg (add_nonneg ?_ ?_) ?_) ?_
      · exact add_nonneg zero_le_one
          (mul_nonneg (div_nonneg (div_nonneg hLnn hn.le) (by norm_num)) hw1)
      · exact add_nonneg zero_le_one
          (mul_nonneg (div_nonneg (div_nonneg hPnn hn.le) (by norm_num)) hw2)
      · exact add_nonneg zero_le_one
          (mul_nonneg (div_nonneg (div_nonneg hTnn hn.le) (by norm_num)) hw3)
      · exact add_nonneg zero_le_one
          (mul_nonneg (div_nonneg (mul_nonneg (div_nonneg (Nat.cast_nonneg _) hn.le)
            (by norm_num)) (by norm_num)) hw4)

/-- Sample point of the crime-saturation counterexample. -/
def cexPt : Pt := ⟨12.97, 77.59⟩

/-- A two-point route sitting at the sample point. -/
def cexRoute : List Pt := [cexPt, cexPt]

/-- Ten crime records exactly at the sample point. -/
def cexCrime10 : List (CrimeRow ℝ) := List.replicate 10 ⟨12.97, 77.59⟩

/-- Eleven crime records exactly at the sample point. -/
def cexCrime11 : List (CrimeRow ℝ) := List.replicate 11 ⟨12.97, 77.59⟩

/-- Preference set with all switches off and the default weights. -/
def noPrefs : PrefsG ℝ :=
  { prefer_main_roads := false, prefer_well_lit := false,
    prefer_populated := false, safety_weight := 0.7, distance_weight := 0.3 }

lemma filter_replicate_true {β : Type} {p : β → Bool} {b : β} (h : p b = true)
    (n : ℕ) : (List.replicate n b).filter p = List.replicate n b := by
  induction n with
  | zero => rfl
  | succ n ih => simp [List.replicate_succ, List.filter_cons, h, ih]

lemma cex_exposure (n : ℕ) :
    calculate_crime_exposure (List.replicate n ⟨12.97, 77.59⟩) 12.97 77.59 0.003
      = n := by
  unfold calculate_crime_exposure
  rw [filter_replicate_true, List.length_replicate]
  simp only [Bool.and_eq_true, decide_eq_true_eq]
  norm_num

lemma lighting_score_empty (lat lon r : ℝ) :
    calculate_lighting_score [] lat lon r = 5 := by
  simp [calculate_lighting_score]

lemma population_score_empty (lat lon r : ℝ) :
    calculate_population_score [] lat lon r = (5, 5, false) := by
  simp [calculate_population_score]

lemma scorer_saturated_at_cex (crime : List (CrimeRow ℝ)) (c : ℕ)
    (hc : calculate_crime_exposure crime 12.97 77.59 0.003 = c) (h8 : 8 ≤ c) :
    safetyScoreOf
      (calculate_route_safety_comprehensive crime [] [] cexRoute noPrefs) = 0 := by
  have h3 : 3 < c := by omega
  have hd : decide (3 < c) = true := decide_eq_true h3
  have hcR : (8:ℝ) ≤ (c:ℝ) := by exact_mod_cast h8
  have h1c : (1:ℝ) ≤ (c:ℝ) := by linarith
  have hc12 : (c:ℝ) ≤ (c:ℝ) ^ (1.2:ℝ) := by
    nth_rewrite 1 [← Real.rpow_one (c:ℝ)]
    exact Real.rpow_le_rpow_of_exponent_le h1c (by norm_num)
  have hc14 : (c:ℝ) ≤ (c:ℝ) ^ (1.4:ℝ) := by
    nth_rewrite 1 [← Real.rpow_one (c:ℝ)]
    exact Real.rpow_le_rpow_of_exponent_le h1c (by norm_num)
  have hmin12 : min (40:ℝ) ((c:ℝ)^(1.2:ℝ) * 5) = 40 := min_eq_left (by nlinarith)
  have hmin14 : min (40:ℝ) ((c:ℝ)^(1.4:ℝ) * 7) = 40 := min_eq_left (by nlinarith)
  have hm30 : (30:ℝ) ⊓ 50 = 30 := min_eq_left (by norm_num)
  have hsup : (0:ℝ) ⊔ (-10) = 0 := max_eq_left (by norm_num)
  have hinf : (100:ℝ) ⊓ 0 = 0 := min_eq_right (by norm_num)
  norm_num at hc hmin12 hmin14
  simp only [calculate_route_safety_comprehensive, safetyScoreOf, cexRoute, cexPt,
    noPrefs]
  norm_num [sliceEvery_one, hc, h3, List.filter_cons, lighting_score_empty,
    population_score_empty, hmin12, hmin14, hm30, hsup, hinf, round2_zero,
    Nat.zero_max, max_self]

lemma filter_replicate_ite {β : Type} (p : β → Bool) (b : β) (n : ℕ) :
    (List.replicate n b).filter p = if p b then List.replicate n b else [] := by
  induction n with
  | zero => simp
  | succ n ih => cases hp : p b <;> simp [List.replicate_succ, List.filter_cons, hp, ih]

lemma cex_exposure_le (lat lon : ℝ) :
    calculate_crime_exposure cexCrime10 lat lon 0.003 ≤
      calculate_crime_exposure cexCrime11 lat lon 0.003 := by
  unfold calculate_crime_exposure cexCrime10 cexCrime11
  rw [filter_replicate_ite, filter_replicate_ite]
  split_ifs <;> simp

/-- Claim C6, counterexample: raising the injected crime count at every
sampled route point from 10 to 11 strictly increases crime exposure but
leaves `safety_score` unchanged (both saturate the capped penalties and
score 0), so the scorer is not strictly decreasing in crime. -/
theorem scorer_not_strictly_monotone_counterexample :
    calculate_crime_exposure cexCrime10 cexPt.lat cexPt.lon 0.003 <
      calculate_crime_exposure cexCrime11 cexPt.lat cexPt.lon 0.003 ∧
    safetyScoreOf
      (calculate_route_safety_comprehensive cexCrime10 [] [] cexRoute noPrefs) = 0 ∧
    safetyScoreOf
      (calculate_route_safety_comprehensive cexCrime11 [] [] cexRoute noPrefs) = 0 := by
  refine ⟨?_, ?_, ?_⟩
  · show calculate_crime_exposure (List.replicate 10 ⟨12.97, 77.59⟩) cexPt.lat
        cexPt.lon 0.003 <
      calculate_crime_exposure (List.replicate 11 ⟨12.97, 77.59⟩) cexPt.lat
        cexPt.lon 0.003
    simp only [cexPt]
    rw [cex_exposure 10, cex_exposure 11]
    norm_num
  · apply scorer_saturated_at_cex _ 10 ?_ (by norm_num)
    unfold cexCrime10
    exact cex_exposure 10
  · apply scorer_saturated_at_cex _ 11 ?_ (by norm_num)
    unfold cexCrime11
    exact cex_exposure 11

/-- Claim C6, witness for the amended monotonicity theorem: applied to the
concrete two-point route with the 10-record and 11-record crime datasets
and empty lighting/population data. -/
theorem scorer_monotone_in_crime_witness :
    (∀ lat lon : ℝ, calculate_crime_exposure cexCrime10 lat lon 0.003 ≤
      calculate_crime_exposure cexCrime11 lat lon 0.003) ∧
    safetyScoreOf
        (calculate_route_safety_comprehensive cexCrime11 [] [] cexRoute noPrefs) ≤
      safetyScoreOf
        (calculate_route_safety_comprehensive cexCrime10 [] [] cexRoute noPrefs) :=
  ⟨cex_exposure_le,
    scorer_monotone_in_crime cexRoute noPrefs cexCrime10 cexCrime11 [] []
      cex_exposure_le (by simp) (by simp)⟩

/-! ## Route validation, fingerprints and the optimization pipeline

`app.py` lines 235-376 (validators), 190-196 (fingerprint hash), 457-527
(OSRM adapter) and 569-905 (the `/api/optimize-route` endpoint); the same
code appears in `app/routes.py` lines 1745-2172 and 2408-2726, differing
only in the composite scorer used and in the fallback branches. -/

noncomputable section

/-- Model of `validate_coordinates` (app.py lines 166-176) on parsed
floats: the fixed Bangalore service bounding box. -/
def validate_coordinates (lat lon : ℝ) : Prop :=
  12.704192 ≤ lat ∧ lat ≤ 13.173706 ∧ 77.269876 ≤ lon ∧ lon ≤ 77.850066

instance (lat lon : ℝ) : Decidable (validate_coordinates lat lon) := by
  unfold validate_coordinates; infer_instance

/-- Model of `validate_route_connectivity` (app.py lines 235-255): true iff
the route has at least two points and no consecutive gap exceeds
`max_gap_km`. -/
def validate_route_connectivity (route_points : List Pt) (max_gap_km : ℝ) : Bool :=
  if route_points.length < 2 then false
  else (route_points.zip route_points.tail).all fun pq =>
    !decide (max_gap_km < hav pq.1.lat pq.1.lon pq.2.lat pq.2.lon)

/-- Model of `detect_route_backtracking` (app.py lines 282-376); returns
`true` when the route is accepted. -/
def detect_route_backtracking (route_points : List Pt)
    (start_lat start_lon end_lat end_lon : ℝ) : Bool :=
  if route_points.length < 5 then true
  else
    let direct_distance := hav start_lat start_lon end_lat end_lon
    if direct_distance < 0.1 then true
    else
      let actual_distance := ((route_points.zip route_points.tail).map fun pq =>
        hav pq.1.lat pq.1.lon pq.2.lat pq.2.lon).sum
      if 1.3 < actual_distance / direct_distance then false
      else
        let n := route_points.length
        let step := max 1 (n / min 20 n)
        let idxs := (List.range n).filter fun i =>
          decide (i % step = 0) && decide (i < n - step)
        let getP := fun i => route_points.getD i ⟨0, 0⟩
        let progresses := idxs.map fun i =>
          hav (getP i).lat (getP i).lon end_lat end_lon -
            hav (getP (i + step)).lat (getP (i + step)).lon end_lat end_lon
        let backtrack_count := (progresses.filter fun pr => decide (pr < 0)).length
        let stagnant_count :=
          (progresses.filter fun pr => decide (¬pr < 0 ∧ pr < 0.01)).length
        let total_segments := idxs.length
        if (total_segments : ℝ) * 0.2 < backtrack_count then false
        else if (total_segments : ℝ) * 0.4 < (backtrack_count + stagnant_count : ℕ)
          then false
        else
          let devPoints := sliceEvery route_points (max 1 (n / 10))
          let max_deviation := devPoints.foldl (fun acc p =>
            let d_start := hav start_lat start_lon p.lat p.lon
            let d_end := hav p.lat p.lon end_lat end_lon
            if direct_distance * 0.7 < d_start ∧ direct_distance * 0.7 < d_end then
              max acc (min d_start d_end)
            else acc) 0
          if direct_distance * 0.3 < max_deviation then false else true

/-- Model of `check_route_main_road_coverage` (app.py lines 257-280);
returns `(has_coverage, main_road_percentage)`.  The population dataset is
the module-level global, passed explicitly here. -/
def check_route_main_road_coverage (population_data : List (PopRow ℝ))
    (route_points : List Pt) : Bool × ℝ :=
  if route_points.length < 2 then (false, 0)
  else
    let n := route_points.length
    let sample_points := min n 20
    let step := n / sample_points
    let idxs := (List.range n).filter fun i => decide (i % max 1 step = 0)
    let getP := fun i => route_points.getD i ⟨0, 0⟩
    let main_road_count := (idxs.filter fun i =>
      (calculate_population_score population_data (getP i).lat (getP i).lon 0.003).2.2).length
    let total_sampled := min sample_points n
    let coverage : ℝ := (main_road_count : ℝ) / (total_sampled : ℝ)
    (decide (0.4 ≤ coverage), coverage * 100)

/-- RouteFingerprint: the five sample points rounded to 4 decimal places.
The source feeds the `%.4f`-formatted point string into `md5`; the model
identifies the fingerprint with the rounded sample values themselves. -/
abbrev Fingerprint := List (ℤ × ℤ)

/-- Model of the `%.4f` rounding used by the fingerprint. -/
def round4 (x : ℝ) : ℤ := round (x * 10000)

/-- Model of `calculate_route_hash` (app.py lines 190-196). -/
def calculate_route_hash (route : List Pt) : Option Fingerprint :=
  if route.length < 2 then none
  else
    let n := route.length
    let idxs := [0, n / 4, n / 2, 3 * n / 4, n - 1].filter fun i => decide (i < n)
    some (idxs.map fun i =>
      (round4 (route.getD i ⟨0, 0⟩).lat, round4 (route.getD i ⟨0, 0⟩).lon))

/-- One alternative of the external OSRM response: polyline (already in
`[lat, lon]` order), distance in meters and duration in seconds. -/
structure RawRoute where
  pts : List Pt
  distance_m : ℝ
  duration_s : ℝ

/-- The per-route dict built by `get_route_from_osrm` (turn-by-turn display
steps omitted: the pipeline hands the polyline, not those steps, to the
guardrail engine). -/
structure RouteData where
  route : List Pt
  distance_km : ℝ
  duration_min : ℝ
  waypoint : Option Pt

/-- Model of `get_route_from_osrm` (app.py lines 457-527): `resp = none`
models a provider error, non-Ok code, or timeout; a returned alternative is
kept only if it has at least 2 points and both endpoints are within 0.2 km
of the requested endpoints. -/
def get_route_from_osrm (start_lat start_lon end_lat end_lon : ℝ)
    (resp : Option (List RawRoute)) (waypoint : Option Pt) :
    Option (List RouteData) :=
  if ¬(validate_coordinates start_lat start_lon ∧
      validate_coordinates end_lat end_lon) then none
  else
    match resp with
    | none => none
    | some rs => some (rs.filterMap fun r =>
        if r.pts.length < 2 then none
        else if 0.2 < hav start_lat start_lon (r.pts.headD ⟨0, 0⟩).lat
              (r.pts.headD ⟨0, 0⟩).lon ∨
            0.2 < hav end_lat end_lon (r.pts.getLastD ⟨0, 0⟩).lat
              (r.pts.getLastD ⟨0, 0⟩).lon then none
        else some ⟨r.pts, r.distance_m / 1000, r.duration_s / 60, waypoint⟩)

/-- A candidate accepted into `all_routes`: route dict, its safety metrics
and its fingerprint (only hashed routes are accepted). -/
structure PoolEntry where
  data : RouteData
  metrics : SafetyMetrics
  fp : Fingerprint

/-- All inputs of one optimization request: parsed coordinates,
preferences, the external provider (a function of the optional waypoint),
the three datasets, the current time (epoch seconds) and the optional ML
predictor (`none` models ML unavailable or a per-route prediction
failure; the raw prediction is clipped to `[0,100]` by `ml_predict`). -/
structure OptimizeArgs where
  start_lat : ℝ
  start_lon : ℝ
  end_lat : ℝ
  end_lon : ℝ
  prefs : PrefsG ℝ
  provider : Option Pt → Option (List RawRoute)
  crime : List (CrimeRow ℝ)
  light : List (LightRow ℝ)
  pop : List (PopRow ℝ)
  now : ℝ
  ml : PoolEntry → Option ℝ

/-- Body of the Phase-1 loop (app.py lines 616-645): validation, dedup,
scoring and the direct-route main-road filter. -/
def acceptDirect (a : OptimizeArgs) (st : List PoolEntry × List Fingerprint)
    (rd : RouteData) : List PoolEntry × List Fingerprint :=
  if validate_route_connectivity rd.route 0.5 = false then st
  else if detect_route_backtracking rd.route a.start_lat a.start_lon
      a.end_lat a.end_lon = false then st
  else
    match calculate_route_hash rd.route with
    | none => st
    | some h =>
      if h ∈ st.2 then st
      else
        match calculate_route_safety_comprehensive a.crime a.light a.pop
            rd.route a.prefs with
        | none => st
        | some m =>
          let cov := check_route_main_road_coverage a.pop rd.route
          if a.prefs.prefer_main_roads ∧ cov.2 < 40 then st
          else (st.1 ++ [⟨rd, m, h⟩], h :: st.2)

/-- Phase 1 (direct routes) of the optimizer. -/
def directPhase (a : OptimizeArgs) : List PoolEntry × List Fingerprint :=
  match get_route_from_osrm a.start_lat a.start_lon a.end_lat a.end_lon
      (a.provider none) none with
  | none => ([], [])
  | some rds => rds.foldl (acceptDirect a) ([], [])

/-- Body of the Phase-2 inner loop (app.py lines 702-731): like
`acceptDirect` but capped at 25 accepted waypoint routes and filtering on
the scorer's `main_road_percentage`. -/
def acceptWaypoint (a : OptimizeArgs)
    (st : List PoolEntry × List Fingerprint × ℕ) (rd : RouteData) :
    List PoolEntry × List Fingerprint × ℕ :=
  if 25 ≤ st.2.2 then st
  else if validate_route_connectivity rd.route 0.5 = false then st
  else if detect_route_backtracking rd.route a.start_lat a.start_lon
      a.end_lat a.end_lon = false then st
  else
    match calculate_route_hash rd.route with
    | none => st
    | some h =>
      if h ∈ st.2.1 then st
      else
        match calculate_route_safety_comprehensive a.crime a.light a.pop
            rd.route a.prefs with
        | none => st
        | some m =>
          if a.prefs.prefer_main_roads ∧ m.main_road_percentage < 40 then st
          else (st.1 ++ [⟨rd, m, h⟩], h :: st.2.1, st.2.2 + 1)

/-- The 3 positions x 3 offsets x 2 directions waypoint grid (app.py lines
662-665), in loop order. -/
def wpTriples : List (ℝ × ℝ × ℝ) :=
  ([0.25, 0.5, 0.75] : List ℝ).flatMap fun position =>
    (([0.5, 1.2, 2.5] : List ℝ).map fun d => d / 111.0).flatMap fun offset =>
      ([1, -1] : List ℝ).map fun direction => (position, offset, direction)

/-- Body of the Phase-2 outer loops (app.py lines 670-731) for one
`(position, offset, direction)` triple. -/
def waypointStep (a : OptimizeArgs) (base_distance perp_lat perp_lon : ℝ)
    (st : List PoolEntry × List Fingerprint × ℕ) (tri : ℝ × ℝ × ℝ) :
    List PoolEntry × List Fingerprint × ℕ :=
  if 25 ≤ st.2.2 then st
  else
    let mid_lat := a.start_lat + (a.end_lat - a.start_lat) * tri.1
    let mid_lon := a.start_lon + (a.end_lon - a.start_lon) * tri.1
    let wp_lat := mid_lat + perp_lat * tri.2.1 * tri.2.2
    let wp_lon := mid_lon + perp_lon * tri.2.1 * tri.2.2
    if ¬validate_coordinates wp_lat wp_lon then st
    else
      let wp_dist := hav a.start_lat a.start_lon wp_lat wp_lon +
        hav wp_lat wp_lon a.end_lat a.end_lon
      let detourFactor := if 0 < base_distance then wp_dist / base_distance else 999
      if 1.8 < detourFactor then st
      else
        match get_route_from_osrm a.start_lat a.start_lon a.end_lat a.end_lon
            (a.provider (some ⟨wp_lat, wp_lon⟩)) (some ⟨wp_lat, wp_lon⟩) with
        | none => st
        | some rds => rds.foldl (acceptWaypoint a) st

/-- The unit perpendicular to the start-to-end vector (app.py lines
651-660); left unnormalised when its magnitude is zero, exactly as in the
source. -/
def perpVec (a : OptimizeArgs) : ℝ × ℝ :=
  let lat_diff := a.end_lat - a.start_lat
  let lon_diff := a.end_lon - a.start_lon
  let mag := Real.sqrt ((-lon_diff) ^ 2 + lat_diff ^ 2)
  if 0 < mag then (-lon_diff / mag, lat_diff / mag) else (-lon_diff, lat_diff)

/-- Phases 1-2: the deduplicated, validated candidate pool `all_routes`
(shared verbatim between `app.py` and `routes.py`). -/
def candidatePool (a : OptimizeArgs) : List PoolEntry :=
  (wpTriples.foldl
    (waypointStep a (hav a.start_lat a.start_lon a.end_lat a.end_lon)
      (perpVec a).1 (perpVec a).2)
    ((directPhase a).1, (directPhase a).2, 0)).1

/-- A pool entry after Phase 3: composite ranking key and the (possibly
ML-blended) `safety_score` the guardrails will act on. -/
structure ScoredEntry where
  entry : PoolEntry
  composite : ℝ
  safety : ℝ

/-- The route-dict fields the composite scorers read, taken from a pool
entry (all keys are present after `route_data.update(safety)`). -/
def toCompositeIn (e : PoolEntry) : RouteMetricsG ℝ :=
  { safety_score := e.metrics.safety_score
    distance_km := e.data.distance_km
    crime_density := e.metrics.crime_density
    max_crime_exposure := e.metrics.max_crime_exposure
    main_road_percentage := e.metrics.main_road_percentage
    lighting_score := e.metrics.lighting_score
    population_score := e.metrics.population_score }

namespace App

/-- Phase 3 per-route body in `app.py` (lines 744-772): composite score
first (on the rule-based safety score), then the optional ML blend
`0.75*rule + 0.25*clip(ml, 0, 100)`. -/
def scoreEntry (a : OptimizeArgs) (e : PoolEntry) : ScoredEntry :=
  let comp := calculate_composite_score (toCompositeIn e) a.prefs
  match a.ml e with
  | none => ⟨e, comp, e.metrics.safety_score⟩
  | some v => ⟨e, comp, 0.75 * e.metrics.safety_score + 0.25 * npClip v 0 100⟩

end App

namespace Routes

/-- Phase 3 per-route body in `app/routes.py` (lines 2622-2650), using the
`routes.py` composite scorer. -/
def scoreEntry (a : OptimizeArgs) (e : PoolEntry) : ScoredEntry :=
  let comp := calculate_composite_score (toCompositeIn e) a.prefs
  match a.ml e with
  | none => ⟨e, comp, e.metrics.safety_score⟩
  | some v => ⟨e, comp, 0.75 * e.metrics.safety_score + 0.25 * npClip v 0 100⟩

end Routes

/-- `all_routes.sort(key=composite_score, reverse=True)`: stable descending
sort on the composite key. -/
def sortScored (l : List ScoredEntry) : List ScoredEntry :=
  l.insertionSort fun x y => y.composite ≤ x.composite

/-- The guardrail call the optimizer makes for one scored route (app.py
lines 787-794): the polyline `[lat, lon]` pairs are passed as `steps` and
`duration_min * 60` as the duration. -/
def routeVerdict (a : OptimizeArgs) (se : ScoredEntry) : Bool × ℝ × List String :=
  apply_safety_guardrails (se.entry.data.route.map fun p => GStep.pair p.lat p.lon)
    (se.entry.data.duration_min * 60) se.safety a.now
    (some a.crime) (some a.light) (some a.pop)

/-- Phase 4 (app.py lines 783-811): apply guardrails in sorted order,
replace the safety score by the adjusted one, stop after 20 accepted
routes.  The counter argument is the number already accepted. -/
def guardrailLoop (a : OptimizeArgs) : List ScoredEntry → ℕ → List ScoredEntry
  | [], _ => []
  | se :: rest, n =>
    let v := routeVerdict a se
    if v.1 = false then guardrailLoop a rest n
    else
      let se2 : ScoredEntry := { se with safety := v.2.1 }
      if 20 ≤ n + 1 then [se2] else se2 :: guardrailLoop a rest (n + 1)

/-- A fully decorated response route. -/
structure RankedRoute where
  data : RouteData
  metrics : SafetyMetrics
  fp : Option Fingerprint
  safety_score : ℝ
  rank : ℕ
  category : String
  reasons : List String
  warning : Option String

/-- Category assignment (app.py lines 825-844), first match wins. -/
def categoryOf (idx : ℕ) (minDist : ℝ) (se : ScoredEntry) : String :=
  if idx = 0 then "best"
  else if se.entry.metrics.crime_density ≤ 1.5 ∧
      se.entry.metrics.max_crime_exposure ≤ 3 then "safest"
  else if se.entry.data.distance_km ≤ minDist * 1.05 then "fastest"
  else if 70 ≤ se.entry.metrics.main_road_percentage then "main_roads"
  else "balanced"

/-- Reasons list (app.py lines 854-877); the f-string numeric
interpolations are folded into fixed phrases. -/
def reasonsOf (m : SafetyMetrics) : List String :=
  (if m.crime_density ≤ 1 then ["Very low crime area"]
    else if m.crime_density ≤ 2 then ["Low crime density"]
    else if 4 < m.crime_density then ["Crime density warning"] else []) ++
  (if m.max_crime_exposure ≤ 2 then ["No crime hotspots"]
    else if m.max_crime_exposure ≤ 5 then ["Minimal crime exposure"]
    else ["Max crime exposure warning"]) ++
  (if 70 < m.main_road_percentage then ["main roads"] else []) ++
  (if 7.5 < m.lighting_score then ["Well-lit area"] else []) ++
  (if 6 < m.population_score then ["Populated area"] else [])

/-- Crime warning (app.py lines 879-884). -/
def warningOf (m : SafetyMetrics) : Option String :=
  if 8 < m.max_crime_exposure ∨ 5 < m.crime_density then
    some ("High crime exposure")
  else if 5 < m.max_crime_exposure ∨ 3 < m.crime_density then
    some ("Moderate crime exposure")
  else none

/-- `min(r.distance_km for r in final_routes)` (nonempty in context). -/
def minDistOf (l : List ScoredEntry) : ℝ :=
  match l.map fun se => se.entry.data.distance_km with
  | [] => 0
  | d :: ds => ds.foldl min d

/-- Final decoration loop (app.py lines 821-887), rank is `idx + 1`. -/
def decorateFrom (minDist : ℝ) : ℕ → List ScoredEntry → List RankedRoute
  | _, [] => []
  | i, se :: rest =>
    { data := se.entry.data
      metrics := se.entry.metrics
      fp := some se.entry.fp
      safety_score := se.safety
      rank := i + 1
      category := categoryOf i minDist se
      reasons := reasonsOf se.entry.metrics
      warning := warningOf se.entry.metrics } :: decorateFrom minDist (i + 1) rest

/-- Endpoint outcome: HTTP 400, HTTP 404, or a success payload with
`routes`, `total_analyzed` and the `is_fallback` flag (`false` when the
response carries no such key, as in `app.py`). -/
inductive ApiResult where
  | badRequest (msg : String)
  | notFound (msg : String)
  | ok (routes : List RankedRoute) (total_analyzed : ℕ) (is_fallback : Bool)

/-- The `routes` list of a result (empty on error). -/
def routesOf : ApiResult → List RankedRoute
  | .ok rs _ _ => rs
  | _ => []

namespace App

/-- Sorted Phase-3 output of the `app.py` endpoint. -/
def sortedPool (a : OptimizeArgs) : List ScoredEntry :=
  sortScored ((candidatePool a).map (scoreEntry a))

/-- Phase-4 output of the `app.py` endpoint. -/
def validatedPool (a : OptimizeArgs) : List ScoredEntry :=
  guardrailLoop a (sortedPool a) 0

/-- Model of the `app.py` `/api/optimize-route` endpoint (lines 569-905):
a hard 404 both when the candidate pool is empty and when every candidate
fails the guardrails — no fallback branch exists in this file. -/
def optimize_route (a : OptimizeArgs) : ApiResult :=
  if ¬(validate_coordinates a.start_lat a.start_lon ∧
      validate_coordinates a.end_lat a.end_lon) then
    .badRequest ("Coordinates outside Bangalore")
  else
    let pool := candidatePool a
    if pool.isEmpty then .notFound ("No valid routes found")
    else
      let validated := validatedPool a
      if validated.isEmpty then .notFound ("No routes passed safety validation")
      else
        let final := validated.take 7
        .ok (decorateFrom (minDistOf final) 0 final) pool.length false

end App

/-- Default metrics of the `routes.py` zero-candidate fallback when even
the comprehensive scorer fails (`safety_score = 50`, crime fields `0`;
the remaining keys are absent in the source and modelled as `0`). -/
def fallbackDefaultMetrics : SafetyMetrics :=
  { safety_score := 50, crime_density := 0, max_crime_exposure := 0,
    crime_hotspot_percentage := 0, lighting_score := 0, population_score := 0,
    traffic_score := 0, main_road_percentage := 0, crime_density_score := 0 }

namespace Routes

/-- The single best-effort route of the `routes.py` zero-candidate
fallback (routes.py lines 2575-2611): the first unvalidated direct
alternative, scored if possible. -/
def fallbackDirect (r0 : RouteData) (m? : Option SafetyMetrics) : RankedRoute :=
  { data := r0
    metrics := m?.getD fallbackDefaultMetrics
    fp := none
    safety_score := (m?.getD fallbackDefaultMetrics).safety_score
    rank := 1
    category := "direct"
    reasons := ["Most direct route available", "Limited safety data available"]
    warning :=
      some ("This route did not pass all safety validations. Please exercise caution.") }

/-- The single best-effort route of the `routes.py` all-guardrails-failed
fallback (routes.py lines 2691-2724): the best pre-guardrail candidate by
composite score. -/
def fallbackBest (b : ScoredEntry) : RankedRoute :=
  { data := b.entry.data
    metrics := b.entry.metrics
    fp := some b.entry.fp
    safety_score := b.safety
    rank := 1
    category := "direct"
    reasons := ["Best route from available options"] ++
      (if 0 < b.entry.metrics.crime_density then ["Crime density warning"] else []) ++
      (if 50 < b.entry.metrics.main_road_percentage then ["main roads"] else [])
    warning := some
      ("This route has safety concerns. Please be cautious and consider alternative transportation.") }

/-- Sorted Phase-3 output of the `routes.py` endpoint (its own composite
scorer). -/
def sortedPool (a : OptimizeArgs) : List ScoredEntry :=
  sortScored ((candidatePool a).map (scoreEntry a))

/-- Phase-4 output of the `routes.py` endpoint. -/
def validatedPool (a : OptimizeArgs) : List ScoredEntry :=
  guardrailLoop a (sortedPool a) 0

/-- Model of the `routes.py` `/api/optimize-route` endpoint (lines
2408-2726), including both fallback branches with `is_fallback = true`. -/
def api_optimize_route (a : OptimizeArgs) : ApiResult :=
  if ¬(validate_coordinates a.start_lat a.start_lon ∧
      validate_coordinates a.end_lat a.end_lon) then
    .badRequest ("Coordinates outside Bangalore")
  else
    let pool := candidatePool a
    if pool.isEmpty then
      match get_route_from_osrm a.start_lat a.start_lon a.end_lat a.end_lon
          (a.provider none) none with
      | some (r0 :: _) =>
        .ok [fallbackDirect r0 (calculate_route_safety_comprehensive a.crime
          a.light a.pop r0.route a.prefs)] 1 true
      | _ => .notFound ("No valid routes found")
    else
      let validated := validatedPool a
      if validated.isEmpty then
        match sortedPool a with
        | [] => .notFound ("No routes passed safety validation")
        | b :: _ => .ok [fallbackBest b] pool.length true
      else
        let final := validated.take 7
        .ok (decorateFrom (minDistOf final) 0 final) pool.length false

end Routes

end

/-! ## Result bounds (claim C2) -/

lemma npClip_bounds {α : Type} [LinearOrderedField α] (x : α) :
    0 ≤ npClip x 0 100 ∧ npClip x 0 100 ≤ 100 :=
  ⟨le_min (le_max_right x 0) (by norm_num), min_le_right _ _⟩

lemma apply_guardrails_score_bounds {α : Type} [LinearOrderedField α]
    [FloorRing α] (steps : List (GStep α)) (dur score t : α)
    (cd : Option (List (CrimeRow α))) (ld : Option (List (LightRow α)))
    (pd : Option (List (PopRow α))) :
    0 ≤ (apply_safety_guardrails steps dur score t cd ld pd).2.1 ∧
      (apply_safety_guardrails steps dur score t cd ld pd).2.1 ≤ 100 := by
  simp only [apply_safety_guardrails]
  exact npClip_bounds _

lemma routeVerdict_bounds (a : OptimizeArgs) (se : ScoredEntry) :
    0 ≤ (routeVerdict a se).2.1 ∧ (routeVerdict a se).2.1 ≤ 100 := by
  unfold routeVerdict
  exact apply_guardrails_score_bounds _ _ _ _ _ _ _

lemma guardrailLoop_safety_bounds (a : OptimizeArgs) :
    ∀ (l : List ScoredEntry) (n : ℕ), ∀ se ∈ guardrailLoop a l n,
      0 ≤ se.safety ∧ se.safety ≤ 100 := by
  intro l
  induction l with
  | nil => intro n se h; simp [guardrailLoop] at h
  | cons x rest ih =>
    intro n se h
    simp only [guardrailLoop] at h
    split at h
    · exact ih n se h
    · split at h
      · rw [List.mem_singleton] at h
        subst h
        exact routeVerdict_bounds a x
      · rcases List.mem_cons.mp h with rfl | h2
        · exact routeVerdict_bounds a x
        · exact ih (n + 1) se h2

lemma decorateFrom_length (d : ℝ) :
    ∀ (i : ℕ) (l : List ScoredEntry), (decorateFrom d i l).length = l.length := by
  intro i l
  induction l generalizing i with
  | nil => rfl
  | cons x rest ih => simp [decorateFrom, ih]

lemma decorateFrom_mem (d : ℝ) :
    ∀ (i : ℕ) (l : List ScoredEntry) (r : RankedRoute), r ∈ decorateFrom d i l →
      ∃ se ∈ l, r.safety_score = se.safety ∧ r.fp = some se.entry.fp := by
  intro i l
  induction l generalizing i with
  | nil => intro r h; simp [decorateFrom] at h
  | cons x rest ih =>
    intro r h
    rcases List.mem_cons.mp h with rfl | h2
    · exact ⟨x, List.mem_cons_self x rest, rfl, rfl⟩
    · obtain ⟨se, hse, h1, h2⟩ := ih (i + 1) r h2
      exact ⟨se, List.mem_cons_of_mem x hse, h1, h2⟩

lemma optimize_route_cases (a : OptimizeArgs) :
    App.optimize_route a = .badRequest ("Coordinates outside Bangalore") ∨
    App.optimize_route a = .notFound ("No valid routes found") ∨
    App.optimize_route a = .notFound ("No routes passed safety validation") ∨
    App.optimize_route a =
      .ok (decorateFrom (minDistOf ((App.validatedPool a).take 7)) 0
        ((App.validatedPool a).take 7)) (candidatePool a).length false := by
  unfold App.optimize_route
  by_cases h1 : ¬(validate_coordinates a.start_lat a.start_lon ∧
      validate_coordinates a.end_lat a.end_lon)
  · left; rw [if_pos h1]
  · rw [if_neg h1]
    by_cases h2 : (candidatePool a).isEmpty = true
    · right; left; simp only [h2, if_true]
    · by_cases h3 : (App.validatedPool a).isEmpty = true
      · right; right; left
        simp only [h2, h3, if_true, if_false, Bool.false_eq_true]
      · right; right; right
        simp only [h2, h3, if_true, if_false, Bool.false_eq_true]

/-- Claim C2: the `app.py` optimizer never returns more than 7 routes, and
every returned route's `safety_score` lies in `[0, 100]` (for every input,
in particular for every valid start and end in the service box; errors
return an empty route list). -/
theorem optimize_route_bounds (a : OptimizeArgs) :
    (routesOf (App.optimize_route a)).length ≤ 7 ∧
    ∀ r ∈ routesOf (App.optimize_route a),
      0 ≤ r.safety_score ∧ r.safety_score ≤ 100 := by
  rcases optimize_route_cases a with h | h | h | h <;> rw [h]
  · simp [routesOf]
  · simp [routesOf]
  · simp [routesOf]
  · constructor
    · simp only [routesOf, decorateFrom_length, List.length_take]
      exact min_le_left 7 _
    · intro r hr
      simp only [routesOf] at hr
      obtain ⟨se, hse, h1, -⟩ := decorateFrom_mem _ _ _ r hr
      rw [h1]
      exact guardrailLoop_safety_bounds a (App.sortedPool a) 0 se
        (List.mem_of_mem_take hse)

attribute [irreducible] wpTriples

/-! ## Fingerprint dedup invariant (claim C3) -/

lemma foldl_preserves {σ β : Type} (f : σ → β → σ) (P : σ → Prop)
    (hf : ∀ s b, P s → P (f s b)) :
    ∀ (l : List β) (s : σ), P s → P (l.foldl f s) := by
  intro l
  induction l with
  | nil => intro s hs; exact hs
  | cons b t ih => intro s hs; exact ih (f s b) (hf s b hs)

/-- Invariant of the Phase 1-2 accumulator: fingerprints in the pool are
pairwise distinct and all recorded in the dedup set. -/
def PoolInv (st : List PoolEntry × List Fingerprint) : Prop :=
  (st.1.map fun e => e.fp).Nodup ∧ ∀ e ∈ st.1, e.fp ∈ st.2

lemma poolInv_push {st : List PoolEntry × List Fingerprint} (h : PoolInv st)
    (rd : RouteData) (m : SafetyMetrics) {hsh : Fingerprint}
    (hnew : hsh ∉ st.2) :
    PoolInv (st.1 ++ [⟨rd, m, hsh⟩], hsh :: st.2) := by
  constructor
  · rw [List.map_append]
    apply List.Nodup.append h.1 (List.nodup_singleton _)
    intro x hx hx2
    rw [List.mem_singleton] at hx2
    subst hx2
    obtain ⟨e, he, hfp⟩ := List.mem_map.mp hx
    exact hnew (hfp ▸ h.2 e he)
  · intro e he
    rcases List.mem_append.mp he with h1 | h1
    · exact List.mem_cons_of_mem _ (h.2 e h1)
    · rw [List.mem_singleton] at h1
      subst h1
      exact List.mem_cons_self _ _

lemma acceptDirect_inv (a : OptimizeArgs) (st : List PoolEntry × List Fingerprint)
    (rd : RouteData) (h : PoolInv st) : PoolInv (acceptDirect a st rd) := by
  unfold acceptDirect
  split
  · exact h
  · split
    · exact h
    · split
      · exact h
      · split
        · exact h
        · split
          · exact h
          · dsimp only
            split
            · exact h
            · exact poolInv_push h rd _ (by assumption)

/-- Invariant of the Phase-2 accumulator (with the waypoint counter). -/
def PoolInv3 (st : List PoolEntry × List Fingerprint × ℕ) : Prop :=
  PoolInv (st.1, st.2.1)

lemma acceptWaypoint_inv (a : OptimizeArgs)
    (st : List PoolEntry × List Fingerprint × ℕ) (rd : RouteData)
    (h : PoolInv3 st) : PoolInv3 (acceptWaypoint a st rd) := by
  unfold acceptWaypoint
  split
  · exact h
  · split
    · exact h
    · split
      · exact h
      · split
        · exact h
        · split
          · exact h
          · split
            · exact h
            · split
              · exact h
              · exact poolInv_push h rd _ (by assumption)

lemma waypointStep_inv (a : OptimizeArgs) (bd pl pn : ℝ)
    (st : List PoolEntry × List Fingerprint × ℕ) (tri : ℝ × ℝ × ℝ)
    (h : PoolInv3 st) : PoolInv3 (waypointStep a bd pl pn st tri) := by
  unfold waypointStep
  dsimp only
  split
  · exact h
  · split
    · exact h
    · split
      · split
        · exact h
        · split
          · exact h
          · exact foldl_preserves _ PoolInv3 (acceptWaypoint_inv a) _ st h
      · split
        · exact h
        · split
          · exact h
          · exact foldl_preserves _ PoolInv3 (acceptWaypoint_inv a) _ st h

lemma directPhase_inv (a : OptimizeArgs) : PoolInv (directPhase a) := by
  unfold directPhase
  split
  · exact ⟨List.nodup_nil, by simp⟩
  · exact foldl_preserves _ PoolInv (acceptDirect_inv a) _ ([], [])
      ⟨List.nodup_nil, by simp⟩

lemma wpFold_inv (a : OptimizeArgs) (bd pl pn : ℝ)
    (init : List PoolEntry × List Fingerprint × ℕ) (h : PoolInv3 init) :
    PoolInv3 (wpTriples.foldl (waypointStep a bd pl pn) init) :=
  foldl_preserves _ PoolInv3 (fun s b => waypointStep_inv a bd pl pn s b)
    wpTriples init h

lemma candidatePool_fp_nodup (a : OptimizeArgs) :
    ((candidatePool a).map fun e => e.fp).Nodup := by
  have h0 : PoolInv3 ((directPhase a).1, (directPhase a).2, 0) := by
    have hd := directPhase_inv a
    exact ⟨hd.1, hd.2⟩
  unfold candidatePool
  exact (wpFold_inv a _ _ _ _ h0).1

lemma scoreEntry_entry_app (a : OptimizeArgs) (e : PoolEntry) :
    (App.scoreEntry a e).entry = e := by
  unfold App.scoreEntry
  cases a.ml e <;> rfl

lemma scoreEntry_entry_routes (a : OptimizeArgs) (e : PoolEntry) :
    (Routes.scoreEntry a e).entry = e := by
  unfold Routes.scoreEntry
  cases a.ml e <;> rfl

lemma guardrailLoop_map_fp_sublist (a : OptimizeArgs) :
    ∀ (l : List ScoredEntry) (n : ℕ),
      List.Sublist ((guardrailLoop a l n).map fun se => se.entry.fp)
        (l.map fun se => se.entry.fp) := by
  intro l
  induction l with
  | nil => intro n; simp [guardrailLoop]
  | cons x rest ih =>
    intro n
    simp only [guardrailLoop, List.map_cons]
    split
    · exact (ih n).cons _
    · split
      · simp only [List.map_cons, List.map_nil]
        exact (List.nil_sublist _).cons₂ _
      · exact (ih (n + 1)).cons₂ _

lemma sortedPool_fp_nodup_app (a : OptimizeArgs) :
    ((App.sortedPool a).map fun se => se.entry.fp).Nodup := by
  have hperm : List.Perm (App.sortedPool a)
      ((candidatePool a).map (App.scoreEntry a)) :=
    List.perm_insertionSort _ _
  have h2 : (((candidatePool a).map (App.scoreEntry a)).map
      fun se => se.entry.fp).Nodup := by
    rw [List.map_map]
    have : ((fun se : ScoredEntry => se.entry.fp) ∘ App.scoreEntry a) =
        fun e => e.fp := by
      funext e
      simp [Function.comp, scoreEntry_entry_app]
    rw [this]
    exact candidatePool_fp_nodup a
  exact ((hperm.map fun se => se.entry.fp).nodup_iff).mpr h2

/-- Claim C3: within one optimization request no two returned routes share
a `RouteFingerprint`; the candidate pool itself is already
fingerprint-deduplicated by the request-scoped dedup set. -/
theorem optimize_route_fingerprints_nodup (a : OptimizeArgs) :
    ((candidatePool a).map fun e => e.fp).Nodup ∧
    ((routesOf (App.optimize_route a)).map fun r => r.fp).Nodup := by
  refine ⟨candidatePool_fp_nodup a, ?_⟩
  rcases optimize_route_cases a with h | h | h | h <;> rw [h]
  · simp [routesOf]
  · simp [routesOf]
  · simp [routesOf]
  · simp only [routesOf]
    have h1 : (((App.validatedPool a).take 7).map fun se => se.entry.fp).Nodup := by
      apply List.Nodup.sublist
        (List.Sublist.map _ (List.take_sublist 7 (App.validatedPool a)))
      exact (guardrailLoop_map_fp_sublist a (App.sortedPool a) 0).nodup
        (sortedPool_fp_nodup_app a)
    have h2 : ∀ (d : ℝ) (i : ℕ) (l : List ScoredEntry),
        (decorateFrom d i l).map (fun r => r.fp) =
          (l.map fun se => se.entry.fp).map some := by
      intro d i l
      induction l generalizing i with
      | nil => rfl
      | cons x rest ih => simp [decorateFrom, ih]
    rw [h2]
    exact h1.map (Option.some_injective _)

/-! ## Connectivity rejection (claim C9) -/

/-- Invariant: every pool entry passed the connectivity validator. -/
def ConnInv (st : List PoolEntry × List Fingerprint) : Prop :=
  ∀ e ∈ st.1, validate_route_connectivity e.data.route 0.5 = true

def ConnInv3 (st : List PoolEntry × List Fingerprint × ℕ) : Prop :=
  ∀ e ∈ st.1, validate_route_connectivity e.data.route 0.5 = true

lemma connInv_push {pool : List PoolEntry}
    (h : ∀ e ∈ pool, validate_route_connectivity e.data.route 0.5 = true)
    {rd : RouteData} (m : SafetyMetrics) (hsh : Fingerprint)
    (hconn : ¬validate_route_connectivity rd.route 0.5 = false) :
    ∀ e ∈ pool ++ [(⟨rd, m, hsh⟩ : PoolEntry)],
      validate_route_connectivity e.data.route 0.5 = true := by
  intro e he
  rcases List.mem_append.mp he with h1 | h1
  · exact h e h1
  · rw [List.mem_singleton] at h1
    subst h1
    rcases Bool.eq_false_or_eq_true (validate_route_connectivity rd.route 0.5)
      with ht | hf
    · exact ht
    · exact absurd hf hconn

lemma acceptDirect_connInv (a : OptimizeArgs)
    (st : List PoolEntry × List Fingerprint) (rd : RouteData)
    (h : ConnInv st) : ConnInv (acceptDirect a st rd) := by
  unfold acceptDirect
  split
  · exact h
  next hconn =>
    split
    · exact h
    · split
      · exact h
      · split
        · exact h
        · split
          · exact h
          · dsimp only
            split
            · exact h
            · exact connInv_push h _ _ hconn

lemma acceptWaypoint_connInv (a : OptimizeArgs)
    (st : List PoolEntry × List Fingerprint × ℕ) (rd : RouteData)
    (h : ConnInv3 st) : ConnInv3 (acceptWaypoint a st rd) := by
  unfold acceptWaypoint
  split
  · exact h
  · split
    · exact h
    next hconn =>
      split
      · exact h
      · split
        · exact h
        · split
          · exact h
          · split
            · exact h
            · split
              · exact h
              · exact connInv_push h _ _ hconn

lemma waypointStep_connInv (a : OptimizeArgs) (bd pl pn : ℝ)
    (st : List PoolEntry × List Fingerprint × ℕ) (tri : ℝ × ℝ × ℝ)
    (h : ConnInv3 st) : ConnInv3 (waypointStep a bd pl pn st tri) := by
  unfold waypointStep
  dsimp only
  split
  · exact h
  · split
    · exact h
    · split
      · split
        · exact h
        · split
          · exact h
          · exact foldl_preserves _ ConnInv3 (acceptWaypoint_connInv a) _ st h
      · split
        · exact h
        · split
          · exact h
          · exact foldl_preserves _ ConnInv3 (acceptWaypoint_connInv a) _ st h

lemma wpFold_connInv (a : OptimizeArgs) (bd pl pn : ℝ)
    (init : List PoolEntry × List Fingerprint × ℕ) (h : ConnInv3 init) :
    ConnInv3 (wpTriples.foldl (waypointStep a bd pl pn) init) :=
  foldl_preserves _ ConnInv3 (fun s b => waypointStep_connInv a bd pl pn s b)
    wpTriples init h

lemma candidatePool_connectivity (a : OptimizeArgs) :
    ∀ e ∈ candidatePool a, validate_route_connectivity e.data.route 0.5 = true := by
  have hd : ConnInv (directPhase a) := by
    unfold directPhase
    split
    · intro e he; simp at he
    · refine foldl_preserves _ ConnInv (acceptDirect_connInv a) _ ([], []) ?_
      intro e he; simp at he
  have h0 : ConnInv3 ((directPhase a).1, (directPhase a).2, 0) := fun e he => hd e he
  unfold candidatePool
  exact wpFold_connInv a _ _ _ _ h0

/-- Claim C9: a route geometry with a consecutive gap of more than 0.5 km
is rejected by the connectivity validator, and no such geometry is ever
admitted into the validated candidate pool. -/
theorem connectivity_gap_rejected (pts : List Pt)
    (h : ∃ i, i + 1 < pts.length ∧
      0.5 < hav (pts.getD i ⟨0, 0⟩).lat (pts.getD i ⟨0, 0⟩).lon
        (pts.getD (i + 1) ⟨0, 0⟩).lat (pts.getD (i + 1) ⟨0, 0⟩).lon) :
    validate_route_connectivity pts 0.5 = false ∧
    ∀ (a : OptimizeArgs), ∀ e ∈ candidatePool a, e.data.route ≠ pts := by
  obtain ⟨i, hi, hgap⟩ := h
  have hlen2 : ¬pts.length < 2 := by omega
  have hfalse : validate_route_connectivity pts 0.5 = false := by
    unfold validate_route_connectivity
    rw [if_neg hlen2]
    refine List.all_eq_false.mpr
      ⟨(pts.getD i ⟨0, 0⟩, pts.getD (i + 1) ⟨0, 0⟩), ?_, ?_⟩
    · have hzi : i < (pts.zip pts.tail).length := by
        simp only [List.length_zip, List.length_tail]
        omega
      have hti : i < pts.tail.length := by
        simp only [List.length_tail]; omega
      have hpi : i < pts.length := by omega
      have hmem := List.getElem_mem hzi
      rw [List.getElem_zip] at hmem
      rw [List.getD_eq_getElem pts ⟨0, 0⟩ hpi,
        List.getD_eq_getElem pts ⟨0, 0⟩ (by omega : i + 1 < pts.length)]
      rwa [List.getElem_tail] at hmem
    · simp only [List.getD_eq_getElem?_getD] at hgap
      simp [hgap]
  refine ⟨hfalse, fun a e he hroute => ?_⟩
  have hc := candidatePool_connectivity a e he
  rw [hroute, hfalse] at hc
  simp at hc

/-- The synthetic 3-point geometry of the C9 witness: the first gap is
about 1.0007 km. -/
def synthRoute : List Pt := [⟨12.97, 77.59⟩, ⟨12.979, 77.59⟩, ⟨12.9795, 77.59⟩]

lemma hav_same_lon (lat1 lat2 lon : ℝ) (h : |rad lat2 - rad lat1| ≤ π) :
    hav lat1 lon lat2 lon = 6371 * |rad lat2 - rad lat1| := by
  unfold hav
  have h0 : rad lon - rad lon = 0 := sub_self _
  simp only [h0, zero_div, Real.sin_zero, ne_eq, OfNat.ofNat_ne_zero,
    not_false_eq_true, zero_pow, mul_zero, add_zero]
  rw [Real.sqrt_sq_eq_abs]
  have hd2 : |(rad lat2 - rad lat1) / 2| ≤ π / 2 := by
    rw [abs_div]
    simp only [Nat.abs_ofNat]
    linarith
  have habs : |Real.sin ((rad lat2 - rad lat1) / 2)| =
      Real.sin |(rad lat2 - rad lat1) / 2| := by
    rcases le_or_lt 0 ((rad lat2 - rad lat1) / 2) with hx | hx
    · rw [abs_of_nonneg hx, abs_of_nonneg]
      apply Real.sin_nonneg_of_nonneg_of_le_pi hx
      linarith [Real.pi_pos, (abs_le.mp hd2).2]
    · have hsin : Real.sin ((rad lat2 - rad lat1) / 2) ≤ 0 := by
        apply Real.sin_nonpos_of_nonnpos_of_neg_pi_le (le_of_lt hx)
        linarith [Real.pi_pos, (abs_le.mp hd2).1]
      rw [abs_of_nonpos hsin, abs_of_neg hx, Real.sin_neg]
  rw [habs, Real.arcsin_sin (le_trans (by linarith [Real.pi_pos]) (abs_nonneg _)) hd2]
  rw [abs_div]
  simp only [Nat.abs_ofNat]
  ring

lemma synth_gap : 0.5 < hav 12.97 77.59 12.979 77.59 := by
  have hdiff : rad 12.979 - rad 12.97 = 0.009 * π / 180 := by
    unfold rad; ring
  have habs : |rad 12.979 - rad 12.97| = 0.009 * π / 180 := by
    rw [hdiff]
    exact abs_of_nonneg (by positivity)
  have hle : |rad 12.979 - rad 12.97| ≤ π := by
    rw [habs]
    nlinarith [Real.pi_pos]
  rw [hav_same_lon 12.97 12.979 77.59 hle, habs]
  nlinarith [Real.pi_gt_three]

/-- Claim C9, witness: the synthetic 3-point geometry with one roughly
1 km gap is rejected by the connectivity validator. -/
theorem connectivity_gap_rejected_witness :
    (∃ i, i + 1 < synthRoute.length ∧
      0.5 < hav (synthRoute.getD i ⟨0, 0⟩).lat (synthRoute.getD i ⟨0, 0⟩).lon
        (synthRoute.getD (i + 1) ⟨0, 0⟩).lat
        (synthRoute.getD (i + 1) ⟨0, 0⟩).lon) ∧
    validate_route_connectivity synthRoute 0.5 = false := by
  have hex : ∃ i, i + 1 < synthRoute.length ∧
      0.5 < hav (synthRoute.getD i ⟨0, 0⟩).lat (synthRoute.getD i ⟨0, 0⟩).lon
        (synthRoute.getD (i + 1) ⟨0, 0⟩).lat
        (synthRoute.getD (i + 1) ⟨0, 0⟩).lon := by
    refine ⟨0, by norm_num [synthRoute], ?_⟩
    simpa [synthRoute] using synth_gap
  exact ⟨hex, (connectivity_gap_rejected synthRoute hex).1⟩

/-! ## Guardrail coordinate extraction in the optimizer (claim C5) -/

lemma extract_route_coords_pairs {α β : Type} (f g : β → α) :
    ∀ l : List β, extract_route_coords (l.map fun b => GStep.pair (f b) (g b)) = [] := by
  intro l
  induction l with
  | nil => rfl
  | cons b t ih => simpa [extract_route_coords] using ih

/-- Claim C5: every guardrail call the optimizer makes passes the
polyline's `[lat, lon]` pairs as `steps`, but coordinate extraction only
accepts steps carrying `start_location`/`end_location` keys, so the
extracted coordinate list is always empty; the crime-hotspot, lighting and
isolation guardrails are therefore skipped (the call equals one with no
datasets at all), and the adjusted score is exactly the input safety score
times the time-of-day factor, clamped to `[0, 100]`. -/
theorem guardrail_coords_always_empty (a : OptimizeArgs) (se : ScoredEntry) :
    extract_route_coords (se.entry.data.route.map fun p => GStep.pair p.lat p.lon) = [] ∧
    routeVerdict a se =
      apply_safety_guardrails
        (se.entry.data.route.map fun p => GStep.pair p.lat p.lon)
        (se.entry.data.duration_min * 60) se.safety a.now none none none ∧
    (routeVerdict a se).2.1 =
      npClip (se.safety *
        (check_time_based_safety a.now (se.entry.data.duration_min * 60)).2.1) 0 100 := by
  have hext := extract_route_coords_pairs Pt.lat Pt.lon se.entry.data.route
  refine ⟨hext, ?_, ?_⟩
  · unfold routeVerdict
    simp [apply_safety_guardrails, hext]
  · unfold routeVerdict
    simp [apply_safety_guardrails, hext, npClip]

/-! ## Fallback policy of the two endpoints (claim C1) -/

noncomputable section

/-- The raw OSRM alternative the witness provider returns for the direct
query: twice the same in-service-box point, 1000 m, 60 s. -/
def exRaw : RawRoute := ⟨cexRoute, 1000, 60⟩

/-- Witness provider: one alternative for the direct query, none for any
waypoint query. -/
def exProvider : Option Pt → Option (List RawRoute) :=
  fun w => match w with
  | none => some [exRaw]
  | some _ => none

/-- Witness request at epoch-second clock `t`: start = end = `cexPt`,
empty datasets, ML unavailable. -/
def exArgsAt (t : ℝ) : OptimizeArgs :=
  { start_lat := 12.97, start_lon := 77.59, end_lat := 12.97, end_lon := 77.59,
    prefs := noPrefs, provider := exProvider, crime := [], light := [],
    pop := [], now := t, ml := fun _ => none }

/-- The route dict `get_route_from_osrm` builds from `exRaw`. -/
def exRD : RouteData := ⟨cexRoute, 1, 1, none⟩

end

lemma exValid : validate_coordinates 12.97 77.59 := by
  unfold validate_coordinates
  norm_num

lemma exOsrm (t : ℝ) :
    get_route_from_osrm (exArgsAt t).start_lat (exArgsAt t).start_lon
      (exArgsAt t).end_lat (exArgsAt t).end_lon
      ((exArgsAt t).provider none) none = some [exRD] := by
  have h0 : hav 12.97 77.59 12.97 77.59 = 0 := hav_self _ _
  simp only [exArgsAt, exProvider]
  unfold get_route_from_osrm
  rw [if_neg (not_not_intro ⟨exValid, exValid⟩)]
  simp only [List.filterMap_cons, List.filterMap_nil]
  rw [if_neg (by simp [exRaw, cexRoute])]
  rw [if_neg (by simp [exRaw, cexRoute, cexPt, h0]; norm_num)]
  simp [exRaw, cexRoute, exRD]

lemma exConn : validate_route_connectivity cexRoute 0.5 = true := by
  have h0 : hav 12.97 77.59 12.97 77.59 = 0 := hav_self _ _
  unfold validate_route_connectivity
  rw [if_neg (by simp [cexRoute])]
  simp [cexRoute, cexPt, h0]
  norm_num

lemma exBack : detect_route_backtracking cexRoute 12.97 77.59 12.97 77.59 = true := by
  unfold detect_route_backtracking
  rw [if_pos (by simp [cexRoute])]

lemma exHash_some : ∃ fp, calculate_route_hash cexRoute = some fp := by
  unfold calculate_route_hash
  rw [if_neg (by simp [cexRoute])]
  exact ⟨_, rfl⟩

lemma exScore_some :
    ∃ m, calculate_route_safety_comprehensive [] [] [] cexRoute noPrefs = some m := by
  unfold calculate_route_safety_comprehensive
  rw [if_neg (by simp [cexRoute])]
  exact ⟨_, rfl⟩

lemma exDirect_ne (t : ℝ) : (directPhase (exArgsAt t)).1 ≠ [] := by
  obtain ⟨fp, hfp⟩ := exHash_some
  obtain ⟨m, hm⟩ := exScore_some
  unfold directPhase
  rw [exOsrm t]
  simp only [List.foldl_cons, List.foldl_nil]
  unfold acceptDirect
  rw [if_neg (by simp [exRD, exConn])]
  rw [if_neg (by simp [exRD, exArgsAt, exBack])]
  simp only [exRD, exArgsAt]
  rw [hfp, hm]
  simp [noPrefs]

lemma acceptWaypoint_ne (a : OptimizeArgs)
    (st : List PoolEntry × List Fingerprint × ℕ) (rd : RouteData)
    (h : st.1 ≠ []) : (acceptWaypoint a st rd).1 ≠ [] := by
  unfold acceptWaypoint
  repeat' split
  all_goals simp_all

lemma waypointStep_ne (a : OptimizeArgs) (bd pl pn : ℝ)
    (st : List PoolEntry × List Fingerprint × ℕ) (tri : ℝ × ℝ × ℝ)
    (h : st.1 ≠ []) : (waypointStep a bd pl pn st tri).1 ≠ [] := by
  unfold waypointStep
  dsimp only
  split
  · exact h
  · split
    · exact h
    · split
      · split
        · exact h
        · split
          · exact h
          · exact foldl_preserves _ (fun s => s.1 ≠ [])
              (fun s b hs => acceptWaypoint_ne a s b hs) _ st h
      · split
        · exact h
        · split
          · exact h
          · exact foldl_preserves _ (fun s => s.1 ≠ [])
              (fun s b hs => acceptWaypoint_ne a s b hs) _ st h

lemma candidatePool_ne_nil (a : OptimizeArgs) (h : (directPhase a).1 ≠ []) :
    candidatePool a ≠ [] := by
  unfold candidatePool
  exact foldl_preserves _ (fun st => st.1 ≠ [])
    (fun st tri hst => waypointStep_ne a _ _ _ st tri hst) wpTriples
    ((directPhase a).1, (directPhase a).2, 0) h

lemma hourOf_3600 : hourOf (3600 : ℝ) = 1 := by
  unfold hourOf
  norm_num

lemma exHour : 0 ≤ hourOf ((exArgsAt 3600).now) ∧ hourOf ((exArgsAt 3600).now) < 3 := by
  have hn : (exArgsAt 3600).now = (3600 : ℝ) := rfl
  rw [hn, hourOf_3600]
  norm_num

lemma routeVerdict_rejects (a : OptimizeArgs)
    (h : 0 ≤ hourOf a.now ∧ hourOf a.now < 3) (se : ScoredEntry) :
    (routeVerdict a se).1 = false := by
  unfold routeVerdict
  exact (apply_guardrails_isValid _ _ _ _ _ _ _).mpr h

lemma guardrailLoop_rejects_all (a : OptimizeArgs)
    (h : 0 ≤ hourOf a.now ∧ hourOf a.now < 3) :
    ∀ (l : List ScoredEntry) (n : ℕ), guardrailLoop a l n = [] := by
  intro l
  induction l with
  | nil => intro n; rfl
  | cons se rest ih =>
    intro n
    simp only [guardrailLoop, routeVerdict_rejects a h se, if_pos]
    exact ih n

/-- Claim C1, counterexample: at a 1 AM request every candidate fails the
time guardrail; the `app.py` endpoint then returns a hard 404 even though
the pre-guardrail candidate pool is nonempty, so no best-effort fallback
route is ever produced by that implementation. -/
theorem optimize_route_no_fallback_counterexample :
    candidatePool (exArgsAt 3600) ≠ [] ∧
    App.optimize_route (exArgsAt 3600) =
      .notFound ("No routes passed safety validation") := by
  have hpool := candidatePool_ne_nil _ (exDirect_ne 3600)
  refine ⟨hpool, ?_⟩
  have hval : App.validatedPool (exArgsAt 3600) = [] := by
    unfold App.validatedPool
    exact guardrailLoop_rejects_all _ exHour _ _
  obtain ⟨x, xs, hx⟩ : ∃ x xs, candidatePool (exArgsAt 3600) = x :: xs := by
    cases hl : candidatePool (exArgsAt 3600) with
    | nil => exact absurd hl hpool
    | cons x xs => exact ⟨x, xs, rfl⟩
  unfold App.optimize_route
  rw [if_neg (not_not_intro ⟨exValid, exValid⟩)]
  simp only [hx, hval, List.isEmpty_cons, List.isEmpty_nil, Bool.false_eq_true,
    if_false, if_true]

lemma isEmpty_false_of_ne_nil {γ : Type} {l : List γ} (h : l ≠ []) :
    l.isEmpty = false := by
  cases l with
  | nil => exact absurd rfl h
  | cons x xs => rfl

lemma sortedPool_routes_length (a : OptimizeArgs) :
    (Routes.sortedPool a).length = (candidatePool a).length := by
  unfold Routes.sortedPool sortScored
  rw [(List.perm_insertionSort _ _).length_eq, List.length_map]

lemma sortedPool_routes_ne_nil (a : OptimizeArgs) (hp : candidatePool a ≠ []) :
    ∃ b rest, Routes.sortedPool a = b :: rest := by
  have hlen := sortedPool_routes_length a
  cases hsp : Routes.sortedPool a with
  | nil =>
    exfalso
    rw [hsp] at hlen
    cases hcp : candidatePool a with
    | nil => exact hp hcp
    | cons c cs => rw [hcp] at hlen; simp at hlen
  | cons b rest => exact ⟨b, rest, rfl⟩

/-- Claim C1, amended: the fallback policy is fulfilled by the `routes.py`
endpoint (and only that one — `app.py` hard-404s, see the counterexample):
when the candidate pool is nonempty but every candidate fails the
guardrails, it returns the single best-composite-score pre-guardrail
candidate flagged `is_fallback = true`; when the pool is empty but the
direct provider query yields a geometry, it returns that unvalidated
direct route flagged `is_fallback = true`; and a hard `notFound` is
returned only when the pool is empty and even the direct query yields no
alternative. -/
theorem api_optimize_route_fallback_policy (a : OptimizeArgs)
    (hv : validate_coordinates a.start_lat a.start_lon ∧
      validate_coordinates a.end_lat a.end_lon) :
    (candidatePool a ≠ [] → Routes.validatedPool a = [] →
      ∃ b rest, Routes.sortedPool a = b :: rest ∧
        Routes.api_optimize_route a =
          .ok [Routes.fallbackBest b] (candidatePool a).length true) ∧
    (candidatePool a = [] →
      ∀ r0 rest, get_route_from_osrm a.start_lat a.start_lon a.end_lat a.end_lon
          (a.provider none) none = some (r0 :: rest) →
        Routes.api_optimize_route a =
          .ok [Routes.fallbackDirect r0 (calculate_route_safety_comprehensive
            a.crime a.light a.pop r0.route a.prefs)] 1 true) ∧
    (∀ msg, Routes.api_optimize_route a = .notFound msg →
      candidatePool a = [] ∧
      ∀ r0 rest, get_route_from_osrm a.start_lat a.start_lon a.end_lat a.end_lon
        (a.provider none) none ≠ some (r0 :: rest)) := by
  refine ⟨?_, ?_, ?_⟩
  · intro hp hvd
    obtain ⟨b, rest, hs⟩ := sortedPool_routes_ne_nil a hp
    refine ⟨b, rest, hs, ?_⟩
    unfold Routes.api_optimize_route
    rw [if_neg (not_not_intro hv)]
    simp only [isEmpty_false_of_ne_nil hp, Bool.false_eq_true, if_false, hvd,
      List.isEmpty_nil, if_true, hs]
  · intro hp r0 rest hq
    unfold Routes.api_optimize_route
    rw [if_neg (not_not_intro hv)]
    simp only [hp, List.isEmpty_nil, if_true, hq]
  · intro msg hmsg
    unfold Routes.api_optimize_route at hmsg
    rw [if_neg (not_not_intro hv)] at hmsg
    by_cases hp : candidatePool a = []
    · refine ⟨hp, ?_⟩
      intro r0 rest hq
      simp only [hp, List.isEmpty_nil, if_true, hq] at hmsg
      exact ApiResult.noConfusion hmsg
    · exfalso
      simp only [isEmpty_false_of_ne_nil hp, Bool.false_eq_true, if_false] at hmsg
      by_cases hvd : Routes.validatedPool a = []
      · obtain ⟨b, rest, hs⟩ := sortedPool_routes_ne_nil a hp
        simp only [hvd, List.isEmpty_nil, if_true, hs] at hmsg
        exact ApiResult.noConfusion hmsg
      · simp only [isEmpty_false_of_ne_nil hvd, Bool.false_eq_true, if_false] at hmsg
        exact ApiResult.noConfusion hmsg

/-- Claim C1, witness: at the 1 AM request `exArgsAt 3600` the pool is
nonempty, the guardrails reject everything, and the `routes.py` endpoint
indeed answers with the single best-effort candidate flagged
`is_fallback = true`. -/
theorem api_optimize_route_fallback_policy_witness :
    (validate_coordinates (exArgsAt 3600).start_lat (exArgsAt 3600).start_lon ∧
      validate_coordinates (exArgsAt 3600).end_lat (exArgsAt 3600).end_lon) ∧
    candidatePool (exArgsAt 3600) ≠ [] ∧
    Routes.validatedPool (exArgsAt 3600) = [] ∧
    (∃ b rest, Routes.sortedPool (exArgsAt 3600) = b :: rest ∧
      Routes.api_optimize_route (exArgsAt 3600) =
        .ok [Routes.fallbackBest b] (candidatePool (exArgsAt 3600)).length true) := by
  have hv : validate_coordinates (exArgsAt 3600).start_lat (exArgsAt 3600).start_lon ∧
      validate_coordinates (exArgsAt 3600).end_lat (exArgsAt 3600).end_lon :=
    ⟨exValid, exValid⟩
  have hp : candidatePool (exArgsAt 3600) ≠ [] :=
    candidatePool_ne_nil _ (exDirect_ne 3600)
  have hvd : Routes.validatedPool (exArgsAt 3600) = [] := by
    unfold Routes.validatedPool
    exact guardrailLoop_rejects_all _ exHour _ _
  exact ⟨hv, hp, hvd, (api_optimize_route_fallback_policy (exArgsAt 3600) hv).1 hp hvd⟩
